import Mathlib

/-!
Verification of the gl1.js 2D sprite renderer (src/gl1.js).

The CPU side (the `gl1` object) is embedded as a state-passing model:
the JavaScript `ArrayBuffer` backing store is a byte map `Nat → Nat`,
and the three typed-array views (`Int16Array` positions, `Uint32Array`
rgbas, `Float32Array` rotations) are embedded as guarded little-endian
byte writes that silently drop out-of-bounds stores, exactly as
JavaScript typed arrays do.  GL calls performed by `drawEverything`,
`resize` and `setup` are embedded as an emitted command list.

The rotation value is a JavaScript double stored through a
`Float32Array`; the model represents it by the 32-bit IEEE-754 pattern
of the stored float (a `Nat < 2^32`), since every claim about it
concerns which bytes of the record it occupies, not float arithmetic.

The shader stages (the `vertCode` string) are embedded over `ℝ`,
GLSL floats being modelled as real numbers.
-/

namespace Gl1

/-- `shortsPerImagePosition` from `setup`: 2 int16 slots for (drawX, drawY). -/
def shortsPerImagePosition : Nat := 2

/-- `shortsPerImageSize` from `setup`: 2 int16 slots for (sizeX, sizeY). -/
def shortsPerImageSize : Nat := 2

/-- `shortsPerImageTexPos` from `setup`: 4 int16 slots for (texX, texY, texSizeX, texSizeY). -/
def shortsPerImageTexPos : Nat := 4

/-- `bytesPerImageRgba` from `setup`: 4 bytes for the packed tint. -/
def bytesPerImageRgba : Nat := 4

/-- `floatsPerImageRotation` from `setup`: 1 float32 for the rotation. -/
def floatsPerImageRotation : Nat := 1

/-- `bytesPerImage` from `setup`: total bytes stored per image, computed as in the source. -/
def bytesPerImage : Nat :=
  shortsPerImagePosition * 2 + shortsPerImageSize * 2 + shortsPerImageTexPos * 2 +
    bytesPerImageRgba + floatsPerImageRotation * 4

/-- JavaScript `ToUint16` (the conversion an `Int16Array` store performs,
viewed as the unsigned two's-complement pattern actually placed in memory). -/
def toUint16 (v : Int) : Nat := (v % 65536).toNat

/-- JavaScript `ToUint32` (the conversion a `Uint32Array` store performs). -/
def toUint32 (v : Nat) : Nat := v % 4294967296

/-- The signed value a GPU `gl.SHORT` attribute fetch decodes from a stored
16-bit pattern. -/
def asInt16 (u : Nat) : Int := if u < 32768 then (u : Int) else (u : Int) - 65536

/-- Write one byte of the backing `ArrayBuffer`. -/
def setByte (buf : Nat → Nat) (i v : Nat) : Nat → Nat := Function.update buf i v

/-- An `Int16Array` store `view[idx] = v` over a buffer of `len` bytes:
little-endian, silently dropped when `idx` is out of bounds of the view. -/
def i16Write (len : Nat) (buf : Nat → Nat) (idx : Nat) (v : Int) : Nat → Nat :=
  if idx < len / 2 then
    setByte (setByte buf (2 * idx) (toUint16 v % 256)) (2 * idx + 1) (toUint16 v / 256)
  else
    buf

/-- A `Uint32Array` (or, byte-wise, a `Float32Array` given the stored float's
bit pattern) store `view[idx] = v` over a buffer of `len` bytes:
little-endian, silently dropped when `idx` is out of bounds of the view. -/
def u32Write (len : Nat) (buf : Nat → Nat) (idx : Nat) (v : Nat) : Nat → Nat :=
  if idx < len / 4 then
    setByte (setByte (setByte (setByte buf
      (4 * idx) (toUint32 v % 256))
      (4 * idx + 1) (toUint32 v / 256 % 256))
      (4 * idx + 2) (toUint32 v / 65536 % 256))
      (4 * idx + 3) (toUint32 v / 16777216 % 256)
  else
    buf

/-- The mutable fields of the `gl1` object that the modelled operations touch.
`buffer` is the byte content of the `ArrayBuffer` allocated in `setup`
(conceptually `maxDraws * bytesPerImage` bytes; the typed-array views bound
their writes by that length).  `glHandles` stands for the opaque GL context /
extension / shader-program references, and `canvasW`/`canvasH` for the bound
canvas's current pixel size.  `texSizeX`/`texSizeY` are the cached atlas size. -/
structure GLState where
  maxDraws : Nat
  draws : Nat
  buffer : Nat → Nat
  canvasW : Nat
  canvasH : Nat
  texSizeX : Nat
  texSizeY : Nat
  glHandles : Nat

/-- The `rgba || 0xFFFFFF7F` default of `drawImage`: an omitted argument and
the (falsy) packed value 0 both fall back to white, fully opaque. -/
def defaultedRgba : Option Nat → Nat
  | none => 0xFFFFFF7F
  | some v => if v = 0 then 0xFFFFFF7F else v

/-- The `rotation || 0` default of `drawImage` (on bit patterns: the pattern
of +0.0 is 0). -/
def defaultedRot : Option Nat → Nat
  | none => 0
  | some v => v

/-- `gl1.drawImage`.  Arguments are in source order; `rgba` is the packed
`0xRRGGBBAA` tint (alpha in the low byte, per the source's
`0x00FF007F` = green example) and `rot` is the IEEE-754 single bit pattern
of the stored rotation.  Writes one record through the three aliased
views and increments `draws`; out-of-bounds stores are dropped. -/
def drawImage (s : GLState) (texPartX texPartY texPartSizeX texPartSizeY : Int)
    (drawX drawY sizeX sizeY : Int) (rgba : Option Nat) (rot : Option Nat) : GLState :=
  let len := s.maxDraws * bytesPerImage
  let i := s.draws * 6
  let j := i * 2
  { s with
    draws := s.draws + 1,
    buffer :=
      i16Write len (i16Write len (i16Write len (i16Write len
        (i16Write len (i16Write len (i16Write len (i16Write len
          (u32Write len
            (u32Write len s.buffer (i + 4) (defaultedRgba rgba))
            (i + 5) (defaultedRot rot))
          j drawX)
          (j + 1) drawY)
          (j + 2) sizeX)
          (j + 3) sizeY)
          (j + 4) texPartX)
          (j + 5) texPartY)
          (j + 6) texPartSizeX)
        (j + 7) texPartSizeY }

/-- `gl1.drawRect`: `drawImage` with the texture rect fixed to the 1×1 pixel
at the atlas origin. -/
def drawRect (s : GLState) (drawX drawY sizeX sizeY : Int)
    (rgba : Option Nat) (rot : Option Nat) : GLState :=
  drawImage s 0 0 1 1 drawX drawY sizeX sizeY rgba rot

/-- GL calls the modelled operations emit, with the arguments the claims
depend on. -/
inductive GLCmd where
  | clear : GLCmd
  | bufferSubData (byteOffset : Nat) (bytes : List Nat) : GLCmd
  | drawElementsInstanced (indexCount : Nat) (instanceCount : Nat) : GLCmd
  | viewport (x y w h : Nat) : GLCmd
  | uniform1f (name : String) (value : ℚ) : GLCmd
  | bufferData (byteLength : Nat) : GLCmd
  | texImage2D (width height : Nat) : GLCmd
  deriving DecidableEq

/-- The index buffer `setup` uploads: 6 indices forming the two triangles of
the quad. -/
def elementIndices : List Nat := [0, 1, 2, 2, 1, 3]

/-- `gl1.drawEverything`: clear, upload the used prefix of the buffer
(`rgbas.subarray(0, draws*6)`, clamped to the view length as `subarray`
clamps), issue one instanced draw of the 6-index quad with `draws`
instances, and reset `draws` to 0. -/
def drawEverything (s : GLState) : GLState × List GLCmd :=
  let uploadedU32 := min (s.draws * 6) (s.maxDraws * bytesPerImage / 4)
  ({ s with draws := 0 },
   [GLCmd.clear,
    GLCmd.bufferSubData 0 ((List.range (uploadedU32 * 4)).map s.buffer),
    GLCmd.drawElementsInstanced 6 s.draws])

/-- `gl1.resize`: set the viewport to the canvas size and the two scale
uniforms to half the canvas width/height.  Mutates no renderer state. -/
def resize (s : GLState) : GLState × List GLCmd :=
  (s,
   [GLCmd.viewport 0 0 s.canvasW s.canvasH,
    GLCmd.uniform1f "uCanvasSizeX" ((s.canvasW : ℚ) / 2),
    GLCmd.uniform1f "uCanvasSizeY" ((s.canvasH : ℚ) / 2)])

/-- The data type tag passed to `gl.vertexAttribPointer` in `setup`. -/
inductive AttrDataType where
  | short : AttrDataType
  | unsignedByte : AttrDataType
  | float : AttrDataType
  deriving DecidableEq

/-- One `vertexAttribPointer` + `vertexAttribDivisorANGLE` configuration made
by `setup`'s `setupAttribute` helper. -/
structure AttribPointer where
  name : String
  size : Nat
  dataType : AttrDataType
  stride : Nat
  byteOffset : Nat
  divisor : Nat
  deriving DecidableEq

/-- One step of `setup`'s `setupAttribute` closure: record the attribute at
the running byte offset with stride `bytesPerImage` and divisor 1, then
advance the offset by the attribute's byte width (amount doubled for
SHORT, quadrupled for FLOAT, as the two source `if`s do). -/
def setupAttribute (st : Nat × List AttribPointer) (name : String)
    (dataType : AttrDataType) (amount : Nat) : Nat × List AttribPointer :=
  let byteOffset := st.1
  let attr : AttribPointer :=
    { name := name, size := amount, dataType := dataType,
      stride := bytesPerImage, byteOffset := byteOffset, divisor := 1 }
  let amount := if dataType = AttrDataType.short then amount * 2 else amount
  let amount := if dataType = AttrDataType.float then amount * 4 else amount
  (byteOffset + amount, st.2 ++ [attr])

/-- The five instance-rate attribute configurations `setup` makes, in source
order. -/
def instanceAttribPointers : List AttribPointer :=
  let st : Nat × List AttribPointer := (0, [])
  let st := setupAttribute st "aPos" AttrDataType.short shortsPerImagePosition
  let st := setupAttribute st "aSize" AttrDataType.short shortsPerImageSize
  let st := setupAttribute st "aTexPos" AttrDataType.short shortsPerImageTexPos
  let st := setupAttribute st "aRgba" AttrDataType.unsignedByte bytesPerImageRgba
  let st := setupAttribute st "aRotation" AttrDataType.float floatsPerImageRotation
  st.2

/-- The shared corner-multiplier vertex stream `setup` uploads:
`Float32Array([0,0, 0,1, 1,0, 1,1])`, as four 2D corners. -/
noncomputable def cornerMultipliers : List (ℝ × ℝ) := [(0, 0), (0, 1), (1, 0), (1, 1)]

/-- The screen-space position `drawPos` computed by the vertex shader
(`vertCode`) for one corner: rotation about the sprite's own center when
`aRotation ≠ 0`, otherwise the trig-free fast path. -/
noncomputable def vertexDrawPos (aPos aSize : ℝ × ℝ) (aRotation : ℝ)
    (aSizeMult : ℝ × ℝ) : ℝ × ℝ :=
  if aRotation ≠ 0 then
    let goX := Real.cos aRotation
    let goY := Real.sin aRotation
    let cornerPosX := aSize.1 * (aSizeMult.1 - 0.5)
    let cornerPosY := aSize.2 * (aSizeMult.2 - 0.5)
    (aPos.1 + (goX * cornerPosX - goY * cornerPosY) + aSize.1 / 2,
     aPos.2 + (goY * cornerPosX + goX * cornerPosY) + aSize.2 / 2)
  else
    (aPos.1 + aSize.1 * aSizeMult.1, aPos.2 + aSize.2 * aSizeMult.2)

/-- The byte content `drawImage` produces when its writes are in bounds:
the update chain of the two 32-bit stores (tint, rotation bits) followed by
the eight 16-bit stores, little-endian, exactly as `drawImage` issues them. -/
def writtenBuffer (d : Nat) (buf : Nat → Nat) (tpx tpy tpw tph dx dy sx sy : Int)
    (rgba rot : Option Nat) : Nat → Nat :=
  let b := setByte (setByte (setByte (setByte buf
    (4 * (d * 6 + 4)) (toUint32 (defaultedRgba rgba) % 256))
    (4 * (d * 6 + 4) + 1) (toUint32 (defaultedRgba rgba) / 256 % 256))
    (4 * (d * 6 + 4) + 2) (toUint32 (defaultedRgba rgba) / 65536 % 256))
    (4 * (d * 6 + 4) + 3) (toUint32 (defaultedRgba rgba) / 16777216 % 256)
  let b := setByte (setByte (setByte (setByte b
    (4 * (d * 6 + 5)) (toUint32 (defaultedRot rot) % 256))
    (4 * (d * 6 + 5) + 1) (toUint32 (defaultedRot rot) / 256 % 256))
    (4 * (d * 6 + 5) + 2) (toUint32 (defaultedRot rot) / 65536 % 256))
    (4 * (d * 6 + 5) + 3) (toUint32 (defaultedRot rot) / 16777216 % 256)
  let b := setByte (setByte b
    (2 * (d * 6 * 2)) (toUint16 dx % 256)) (2 * (d * 6 * 2) + 1) (toUint16 dx / 256)
  let b := setByte (setByte b
    (2 * (d * 6 * 2 + 1)) (toUint16 dy % 256)) (2 * (d * 6 * 2 + 1) + 1) (toUint16 dy / 256)
  let b := setByte (setByte b
    (2 * (d * 6 * 2 + 2)) (toUint16 sx % 256)) (2 * (d * 6 * 2 + 2) + 1) (toUint16 sx / 256)
  let b := setByte (setByte b
    (2 * (d * 6 * 2 + 3)) (toUint16 sy % 256)) (2 * (d * 6 * 2 + 3) + 1) (toUint16 sy / 256)
  let b := setByte (setByte b
    (2 * (d * 6 * 2 + 4)) (toUint16 tpx % 256)) (2 * (d * 6 * 2 + 4) + 1) (toUint16 tpx / 256)
  let b := setByte (setByte b
    (2 * (d * 6 * 2 + 5)) (toUint16 tpy % 256)) (2 * (d * 6 * 2 + 5) + 1) (toUint16 tpy / 256)
  let b := setByte (setByte b
    (2 * (d * 6 * 2 + 6)) (toUint16 tpw % 256)) (2 * (d * 6 * 2 + 6) + 1) (toUint16 tpw / 256)
  let b := setByte (setByte b
    (2 * (d * 6 * 2 + 7)) (toUint16 tph % 256)) (2 * (d * 6 * 2 + 7) + 1) (toUint16 tph / 256)
  b

/-- The tint multiplier `fragAbgr` computed by the vertex shader from the
`aRgba` attribute `(x, y, z, w) = (a, b, g, r)` and multiplied against the
sampled texel by the fragment shader.  Result components are
(red, green, blue, alpha). -/
noncomputable def fragAbgr (x y z w : ℝ) : ℝ × ℝ × ℝ × ℝ :=
  if x > 127 then
    let colorMult := (2 : ℝ) ^ ((x - 127) / 16) / 255
    (w * colorMult, z * colorMult, y * colorMult, 1)
  else
    (w / 255, z / 255, y / 255, x / 127)

/-- A concrete renderer state: capacity 2, empty frame, zeroed buffer. -/
def exState : GLState :=
  { maxDraws := 2, draws := 0, buffer := fun _ => 0, canvasW := 640, canvasH := 480,
    texSizeX := 128, texSizeY := 64, glHandles := 0 }

/-- A concrete renderer state whose frame is already at capacity. -/
def fullState : GLState :=
  { maxDraws := 1, draws := 1, buffer := fun _ => 0, canvasW := 640, canvasH := 480,
    texSizeX := 128, texSizeY := 64, glHandles := 0 }

/-- `exState` with one pending sprite. -/
def exDrawn : GLState := { exState with draws := 1 }

/-- `exState` bound to a canvas of different dimensions. -/
def exState2 : GLState := { exState with canvasW := 800, canvasH := 600 }

theorem bytesPerImage_eq : bytesPerImage = 24 := rfl

theorem setByte_at (buf : Nat → Nat) (i v j : Nat) (h : j = i) : setByte buf i v j = v := by
  rw [setByte, h, Function.update_same]

theorem setByte_ne (buf : Nat → Nat) (i v j : Nat) (h : j ≠ i) : setByte buf i v j = buf j := by
  rw [setByte, Function.update_noteq h]

theorem u32Write_pos (len : Nat) (buf : Nat → Nat) (idx : Nat) (v : Nat)
    (h : idx < len / 4) :
    u32Write len buf idx v =
      setByte (setByte (setByte (setByte buf
        (4 * idx) (toUint32 v % 256))
        (4 * idx + 1) (toUint32 v / 256 % 256))
        (4 * idx + 2) (toUint32 v / 65536 % 256))
        (4 * idx + 3) (toUint32 v / 16777216 % 256) := by
  rw [u32Write, if_pos h]

theorem u32Write_neg (len : Nat) (buf : Nat → Nat) (idx : Nat) (v : Nat)
    (h : ¬ idx < len / 4) : u32Write len buf idx v = buf := by
  rw [u32Write, if_neg h]

theorem i16Write_pos (len : Nat) (buf : Nat → Nat) (idx : Nat) (v : Int)
    (h : idx < len / 2) :
    i16Write len buf idx v =
      setByte (setByte buf (2 * idx) (toUint16 v % 256)) (2 * idx + 1) (toUint16 v / 256) := by
  rw [i16Write, if_pos h]

theorem i16Write_neg (len : Nat) (buf : Nat → Nat) (idx : Nat) (v : Int)
    (h : ¬ idx < len / 2) : i16Write len buf idx v = buf := by
  rw [i16Write, if_neg h]

theorem drawImage_eq (s : GLState) (tpx tpy tpw tph dx dy sx sy : Int)
    (rgba rot : Option Nat) (h : s.draws < s.maxDraws) :
    drawImage s tpx tpy tpw tph dx dy sx sy rgba rot =
      { s with draws := s.draws + 1,
               buffer := writtenBuffer s.draws s.buffer tpx tpy tpw tph dx dy sx sy rgba rot } := by
  have hlen : s.maxDraws * bytesPerImage = s.maxDraws * 24 := by rw [bytesPerImage_eq]
  simp only [drawImage]
  rw [u32Write_pos _ _ (s.draws * 6 + 4) _ (by rw [hlen]; omega),
    u32Write_pos _ _ (s.draws * 6 + 5) _ (by rw [hlen]; omega),
    i16Write_pos _ _ (s.draws * 6 * 2) _ (by rw [hlen]; omega),
    i16Write_pos _ _ (s.draws * 6 * 2 + 1) _ (by rw [hlen]; omega),
    i16Write_pos _ _ (s.draws * 6 * 2 + 2) _ (by rw [hlen]; omega),
    i16Write_pos _ _ (s.draws * 6 * 2 + 3) _ (by rw [hlen]; omega),
    i16Write_pos _ _ (s.draws * 6 * 2 + 4) _ (by rw [hlen]; omega),
    i16Write_pos _ _ (s.draws * 6 * 2 + 5) _ (by rw [hlen]; omega),
    i16Write_pos _ _ (s.draws * 6 * 2 + 6) _ (by rw [hlen]; omega),
    i16Write_pos _ _ (s.draws * 6 * 2 + 7) _ (by rw [hlen]; omega)]
  rfl

theorem drawImage_eq_of_full (s : GLState) (tpx tpy tpw tph dx dy sx sy : Int)
    (rgba rot : Option Nat) (h : s.maxDraws ≤ s.draws) :
    drawImage s tpx tpy tpw tph dx dy sx sy rgba rot = { s with draws := s.draws + 1 } := by
  have hlen : s.maxDraws * bytesPerImage = s.maxDraws * 24 := by rw [bytesPerImage_eq]
  simp only [drawImage]
  rw [u32Write_neg _ _ (s.draws * 6 + 4) _ (by rw [hlen]; omega),
    u32Write_neg _ _ (s.draws * 6 + 5) _ (by rw [hlen]; omega),
    i16Write_neg _ _ (s.draws * 6 * 2) _ (by rw [hlen]; omega),
    i16Write_neg _ _ (s.draws * 6 * 2 + 1) _ (by rw [hlen]; omega),
    i16Write_neg _ _ (s.draws * 6 * 2 + 2) _ (by rw [hlen]; omega),
    i16Write_neg _ _ (s.draws * 6 * 2 + 3) _ (by rw [hlen]; omega),
    i16Write_neg _ _ (s.draws * 6 * 2 + 4) _ (by rw [hlen]; omega),
    i16Write_neg _ _ (s.draws * 6 * 2 + 5) _ (by rw [hlen]; omega),
    i16Write_neg _ _ (s.draws * 6 * 2 + 6) _ (by rw [hlen]; omega),
    i16Write_neg _ _ (s.draws * 6 * 2 + 7) _ (by rw [hlen]; omega)]

theorem writtenBuffer_at0 (d : Nat) (buf : Nat → Nat) (tpx tpy tpw tph dx dy sx sy : Int)
    (rgba rot : Option Nat) :
    writtenBuffer d buf tpx tpy tpw tph dx dy sx sy rgba rot (d * 24) =
      toUint16 dx % 256 := by
  simp only [writtenBuffer]
  rw [setByte_ne _ (2 * (d * 6 * 2 + 7) + 1) _ (d * 24) (by omega)]
  rw [setByte_ne _ (2 * (d * 6 * 2 + 7)) _ (d * 24) (by omega)]
  rw [setByte_ne _ (2 * (d * 6 * 2 + 6) + 1) _ (d * 24) (by omega)]
  rw [setByte_ne _ (2 * (d * 6 * 2 + 6)) _ (d * 24) (by omega)]
  rw [setByte_ne _ (2 * (d * 6 * 2 + 5) + 1) _ (d * 24) (by omega)]
  rw [setByte_ne _ (2 * (d * 6 * 2 + 5)) _ (d * 24) (by omega)]
  rw [setByte_ne _ (2 * (d * 6 * 2 + 4) + 1) _ (d * 24) (by omega)]
  rw [setByte_ne _ (2 * (d * 6 * 2 + 4)) _ (d * 24) (by omega)]
  rw [setByte_ne _ (2 * (d * 6 * 2 + 3) + 1) _ (d * 24) (by omega)]
  rw [setByte_ne _ (2 * (d * 6 * 2 + 3)) _ (d * 24) (by omega)]
  rw [setByte_ne _ (2 * (d * 6 * 2 + 2) + 1) _ (d * 24) (by omega)]
  rw [setByte_ne _ (2 * (d * 6 * 2 + 2)) _ (d * 24) (by omega)]
  rw [setByte_ne _ (2 * (d * 6 * 2 + 1) + 1) _ (d * 24) (by omega)]
  rw [setByte_ne _ (2 * (d * 6 * 2 + 1)) _ (d * 24) (by omega)]
  rw [setByte_ne _ (2 * (d * 6 * 2) + 1) _ (d * 24) (by omega)]
  rw [setByte_at _ (2 * (d * 6 * 2)) _ (d * 24) (by omega)]

theorem writtenBuffer_at1 (d : Nat) (buf : Nat → Nat) (tpx tpy tpw tph dx dy sx sy : Int)
    (rgba rot : Option Nat) :
    writtenBuffer d buf tpx tpy tpw tph dx dy sx sy rgba rot (d * 24 + 1) =
      toUint16 dx / 256 := by
  simp only [writtenBuffer]
  rw [setByte_ne _ (2 * (d * 6 * 2 + 7) + 1) _ (d * 24 + 1) (by omega)]
  rw [setByte_ne _ (2 * (d * 6 * 2 + 7)) _ (d * 24 + 1) (by omega)]
  rw [setByte_ne _ (2 * (d * 6 * 2 + 6) + 1) _ (d * 24 + 1) (by omega)]
  rw [setByte_ne _ (2 * (d * 6 * 2 + 6)) _ (d * 24 + 1) (by omega)]
  rw [setByte_ne _ (2 * (d * 6 * 2 + 5) + 1) _ (d * 24 + 1) (by omega)]
  rw [setByte_ne _ (2 * (d * 6 * 2 + 5)) _ (d * 24 + 1) (by omega)]
  rw [setByte_ne _ (2 * (d * 6 * 2 + 4) + 1) _ (d * 24 + 1) (by omega)]
  rw [setByte_ne _ (2 * (d * 6 * 2 + 4)) _ (d * 24 + 1) (by omega)]
  rw [setByte_ne _ (2 * (d * 6 * 2 + 3) + 1) _ (d * 24 + 1) (by omega)]
  rw [setByte_ne _ (2 * (d * 6 * 2 + 3)) _ (d * 24 + 1) (by omega)]
  rw [setByte_ne _ (2 * (d * 6 * 2 + 2) + 1) _ (d * 24 + 1) (by omega)]
  rw [setByte_ne _ (2 * (d * 6 * 2 + 2)) _ (d * 24 + 1) (by omega)]
  rw [setByte_ne _ (2 * (d * 6 * 2 + 1) + 1) _ (d * 24 + 1) (by omega)]
  rw [setByte_ne _ (2 * (d * 6 * 2 + 1)) _ (d * 24 + 1) (by omega)]
  rw [setByte_at _ (2 * (d * 6 * 2) + 1) _ (d * 24 + 1) (by omega)]

theorem writtenBuffer_at2 (d : Nat) (buf : Nat → Nat) (tpx tpy tpw tph dx dy sx sy : Int)
    (rgba rot : Option Nat) :
    writtenBuffer d buf tpx tpy tpw tph dx dy sx sy rgba rot (d * 24 + 2) =
      toUint16 dy % 256 := by
  simp only [writtenBuffer]
  rw [setByte_ne _ (2 * (d * 6 * 2 + 7) + 1) _ (d * 24 + 2) (by omega)]
  rw [setByte_ne _ (2 * (d * 6 * 2 + 7)) _ (d * 24 + 2) (by omega)]
  rw [setByte_ne _ (2 * (d * 6 * 2 + 6) + 1) _ (d * 24 + 2) (by omega)]
  rw [setByte_ne _ (2 * (d * 6 * 2 + 6)) _ (d * 24 + 2) (by omega)]
  rw [setByte_ne _ (2 * (d * 6 * 2 + 5) + 1) _ (d * 24 + 2) (by omega)]
  rw [setByte_ne _ (2 * (d * 6 * 2 + 5)) _ (d * 24 + 2) (by omega)]
  rw [setByte_ne _ (2 * (d * 6 * 2 + 4) + 1) _ (d * 24 + 2) (by omega)]
  rw [setByte_ne _ (2 * (d * 6 * 2 + 4)) _ (d * 24 + 2) (by omega)]
  rw [setByte_ne _ (2 * (d * 6 * 2 + 3) + 1) _ (d * 24 + 2) (by omega)]
  rw [setByte_ne _ (2 * (d * 6 * 2 + 3)) _ (d * 24 + 2) (by omega)]
  rw [setByte_ne _ (2 * (d * 6 * 2 + 2) + 1) _ (d * 24 + 2) (by omega)]
  rw [setByte_ne _ (2 * (d * 6 * 2 + 2)) _ (d * 24 + 2) (by omega)]
  rw [setByte_ne _ (2 * (d * 6 * 2 + 1) + 1) _ (d * 24 + 2) (by omega)]
  rw [setByte_at _ (2 * (d * 6 * 2 + 1)) _ (d * 24 + 2) (by omega)]

theorem writtenBuffer_at3 (d : Nat) (buf : Nat → Nat) (tpx tpy tpw tph dx dy sx sy : Int)
    (rgba rot : Option Nat) :
    writtenBuffer d buf tpx tpy tpw tph dx dy sx sy rgba rot (d * 24 + 3) =
      toUint16 dy / 256 := by
  simp only [writtenBuffer]
  rw [setByte_ne _ (2 * (d * 6 * 2 + 7) + 1) _ (d * 24 + 3) (by omega)]
  rw [setByte_ne _ (2 * (d * 6 * 2 + 7)) _ (d * 24 + 3) (by omega)]
  rw [setByte_ne _ (2 * (d * 6 * 2 + 6) + 1) _ (d * 24 + 3) (by omega)]
  rw [setByte_ne _ (2 * (d * 6 * 2 + 6)) _ (d * 24 + 3) (by omega)]
  rw [setByte_ne _ (2 * (d * 6 * 2 + 5) + 1) _ (d * 24 + 3) (by omega)]
  rw [setByte_ne _ (2 * (d * 6 * 2 + 5)) _ (d * 24 + 3) (by omega)]
  rw [setByte_ne _ (2 * (d * 6 * 2 + 4) + 1) _ (d * 24 + 3) (by omega)]
  rw [setByte_ne _ (2 * (d * 6 * 2 + 4)) _ (d * 24 + 3) (by omega)]
  rw [setByte_ne _ (2 * (d * 6 * 2 + 3) + 1) _ (d * 24 + 3) (by omega)]
  rw [setByte_ne _ (2 * (d * 6 * 2 + 3)) _ (d * 24 + 3) (by omega)]
  rw [setByte_ne _ (2 * (d * 6 * 2 + 2) + 1) _ (d * 24 + 3) (by omega)]
  rw [setByte_ne _ (2 * (d * 6 * 2 + 2)) _ (d * 24 + 3) (by omega)]
  rw [setByte_at _ (2 * (d * 6 * 2 + 1) + 1) _ (d * 24 + 3) (by omega)]

theorem writtenBuffer_at4 (d : Nat) (buf : Nat → Nat) (tpx tpy tpw tph dx dy sx sy : Int)
    (rgba rot : Option Nat) :
    writtenBuffer d buf tpx tpy tpw tph dx dy sx sy rgba rot (d * 24 + 4) =
      toUint16 sx % 256 := by
  simp only [writtenBuffer]
  rw [setByte_ne _ (2 * (d * 6 * 2 + 7) + 1) _ (d * 24 + 4) (by omega)]
  rw [setByte_ne _ (2 * (d * 6 * 2 + 7)) _ (d * 24 + 4) (by omega)]
  rw [setByte_ne _ (2 * (d * 6 * 2 + 6) + 1) _ (d * 24 + 4) (by omega)]
  rw [setByte_ne _ (2 * (d * 6 * 2 + 6)) _ (d * 24 + 4) (by omega)]
  rw [setByte_ne _ (2 * (d * 6 * 2 + 5) + 1) _ (d * 24 + 4) (by omega)]
  rw [setByte_ne _ (2 * (d * 6 * 2 + 5)) _ (d * 24 + 4) (by omega)]
  rw [setByte_ne _ (2 * (d * 6 * 2 + 4) + 1) _ (d * 24 + 4) (by omega)]
  rw [setByte_ne _ (2 * (d * 6 * 2 + 4)) _ (d * 24 + 4) (by omega)]
  rw [setByte_ne _ (2 * (d * 6 * 2 + 3) + 1) _ (d * 24 + 4) (by omega)]
  rw [setByte_ne _ (2 * (d * 6 * 2 + 3)) _ (d * 24 + 4) (by omega)]
  rw [setByte_ne _ (2 * (d * 6 * 2 + 2) + 1) _ (d * 24 + 4) (by omega)]
  rw [setByte_at _ (2 * (d * 6 * 2 + 2)) _ (d * 24 + 4) (by omega)]

theorem writtenBuffer_at5 (d : Nat) (buf : Nat → Nat) (tpx tpy tpw tph dx dy sx sy : Int)
    (rgba rot : Option Nat) :
    writtenBuffer d buf tpx tpy tpw tph dx dy sx sy rgba rot (d * 24 + 5) =
      toUint16 sx / 256 := by
  simp only [writtenBuffer]
  rw [setByte_ne _ (2 * (d * 6 * 2 + 7) + 1) _ (d * 24 + 5) (by omega)]
  rw [setByte_ne _ (2 * (d * 6 * 2 + 7)) _ (d * 24 + 5) (by omega)]
  rw [setByte_ne _ (2 * (d * 6 * 2 + 6) + 1) _ (d * 24 + 5) (by omega)]
  rw [setByte_ne _ (2 * (d * 6 * 2 + 6)) _ (d * 24 + 5) (by omega)]
  rw [setByte_ne _ (2 * (d * 6 * 2 + 5) + 1) _ (d * 24 + 5) (by omega)]
  rw [setByte_ne _ (2 * (d * 6 * 2 + 5)) _ (d * 24 + 5) (by omega)]
  rw [setByte_ne _ (2 * (d * 6 * 2 + 4) + 1) _ (d * 24 + 5) (by omega)]
  rw [setByte_ne _ (2 * (d * 6 * 2 + 4)) _ (d * 24 + 5) (by omega)]
  rw [setByte_ne _ (2 * (d * 6 * 2 + 3) + 1) _ (d * 24 + 5) (by omega)]
  rw [setByte_ne _ (2 * (d * 6 * 2 + 3)) _ (d * 24 + 5) (by omega)]
  rw [setByte_at _ (2 * (d * 6 * 2 + 2) + 1) _ (d * 24 + 5) (by omega)]

theorem writtenBuffer_at6 (d : Nat) (buf : Nat → Nat) (tpx tpy tpw tph dx dy sx sy : Int)
    (rgba rot : Option Nat) :
    writtenBuffer d buf tpx tpy tpw tph dx dy sx sy rgba rot (d * 24 + 6) =
      toUint16 sy % 256 := by
  simp only [writtenBuffer]
  rw [setByte_ne _ (2 * (d * 6 * 2 + 7) + 1) _ (d * 24 + 6) (by omega)]
  rw [setByte_ne _ (2 * (d * 6 * 2 + 7)) _ (d * 24 + 6) (by omega)]
  rw [setByte_ne _ (2 * (d * 6 * 2 + 6) + 1) _ (d * 24 + 6) (by omega)]
  rw [setByte_ne _ (2 * (d * 6 * 2 + 6)) _ (d * 24 + 6) (by omega)]
  rw [setByte_ne _ (2 * (d * 6 * 2 + 5) + 1) _ (d * 24 + 6) (by omega)]
  rw [setByte_ne _ (2 * (d * 6 * 2 + 5)) _ (d * 24 + 6) (by omega)]
  rw [setByte_ne _ (2 * (d * 6 * 2 + 4) + 1) _ (d * 24 + 6) (by omega)]
  rw [setByte_ne _ (2 * (d * 6 * 2 + 4)) _ (d * 24 + 6) (by omega)]
  rw [setByte_ne _ (2 * (d * 6 * 2 + 3) + 1) _ (d * 24 + 6) (by omega)]
  rw [setByte_at _ (2 * (d * 6 * 2 + 3)) _ (d * 24 + 6) (by omega)]

theorem writtenBuffer_at7 (d : Nat) (buf : Nat → Nat) (tpx tpy tpw tph dx dy sx sy : Int)
    (rgba rot : Option Nat) :
    writtenBuffer d buf tpx tpy tpw tph dx dy sx sy rgba rot (d * 24 + 7) =
      toUint16 sy / 256 := by
  simp only [writtenBuffer]
  rw [setByte_ne _ (2 * (d * 6 * 2 + 7) + 1) _ (d * 24 + 7) (by omega)]
  rw [setByte_ne _ (2 * (d * 6 * 2 + 7)) _ (d * 24 + 7) (by omega)]
  rw [setByte_ne _ (2 * (d * 6 * 2 + 6) + 1) _ (d * 24 + 7) (by omega)]
  rw [setByte_ne _ (2 * (d * 6 * 2 + 6)) _ (d * 24 + 7) (by omega)]
  rw [setByte_ne _ (2 * (d * 6 * 2 + 5) + 1) _ (d * 24 + 7) (by omega)]
  rw [setByte_ne _ (2 * (d * 6 * 2 + 5)) _ (d * 24 + 7) (by omega)]
  rw [setByte_ne _ (2 * (d * 6 * 2 + 4) + 1) _ (d * 24 + 7) (by omega)]
  rw [setByte_ne _ (2 * (d * 6 * 2 + 4)) _ (d * 24 + 7) (by omega)]
  rw [setByte_at _ (2 * (d * 6 * 2 + 3) + 1) _ (d * 24 + 7) (by omega)]

theorem writtenBuffer_at8 (d : Nat) (buf : Nat → Nat) (tpx tpy tpw tph dx dy sx sy : Int)
    (rgba rot : Option Nat) :
    writtenBuffer d buf tpx tpy tpw tph dx dy sx sy rgba rot (d * 24 + 8) =
      toUint16 tpx % 256 := by
  simp only [writtenBuffer]
  rw [setByte_ne _ (2 * (d * 6 * 2 + 7) + 1) _ (d * 24 + 8) (by omega)]
  rw [setByte_ne _ (2 * (d * 6 * 2 + 7)) _ (d * 24 + 8) (by omega)]
  rw [setByte_ne _ (2 * (d * 6 * 2 + 6) + 1) _ (d * 24 + 8) (by omega)]
  rw [setByte_ne _ (2 * (d * 6 * 2 + 6)) _ (d * 24 + 8) (by omega)]
  rw [setByte_ne _ (2 * (d * 6 * 2 + 5) + 1) _ (d * 24 + 8) (by omega)]
  rw [setByte_ne _ (2 * (d * 6 * 2 + 5)) _ (d * 24 + 8) (by omega)]
  rw [setByte_ne _ (2 * (d * 6 * 2 + 4) + 1) _ (d * 24 + 8) (by omega)]
  rw [setByte_at _ (2 * (d * 6 * 2 + 4)) _ (d * 24 + 8) (by omega)]

theorem writtenBuffer_at9 (d : Nat) (buf : Nat → Nat) (tpx tpy tpw tph dx dy sx sy : Int)
    (rgba rot : Option Nat) :
    writtenBuffer d buf tpx tpy tpw tph dx dy sx sy rgba rot (d * 24 + 9) =
      toUint16 tpx / 256 := by
  simp only [writtenBuffer]
  rw [setByte_ne _ (2 * (d * 6 * 2 + 7) + 1) _ (d * 24 + 9) (by omega)]
  rw [setByte_ne _ (2 * (d * 6 * 2 + 7)) _ (d * 24 + 9) (by omega)]
  rw [setByte_ne _ (2 * (d * 6 * 2 + 6) + 1) _ (d * 24 + 9) (by omega)]
  rw [setByte_ne _ (2 * (d * 6 * 2 + 6)) _ (d * 24 + 9) (by omega)]
  rw [setByte_ne _ (2 * (d * 6 * 2 + 5) + 1) _ (d * 24 + 9) (by omega)]
  rw [setByte_ne _ (2 * (d * 6 * 2 + 5)) _ (d * 24 + 9) (by omega)]
  rw [setByte_at _ (2 * (d * 6 * 2 + 4) + 1) _ (d * 24 + 9) (by omega)]

theorem writtenBuffer_at10 (d : Nat) (buf : Nat → Nat) (tpx tpy tpw tph dx dy sx sy : Int)
    (rgba rot : Option Nat) :
    writtenBuffer d buf tpx tpy tpw tph dx dy sx sy rgba rot (d * 24 + 10) =
      toUint16 tpy % 256 := by
  simp only [writtenBuffer]
  rw [setByte_ne _ (2 * (d * 6 * 2 + 7) + 1) _ (d * 24 + 10) (by omega)]
  rw [setByte_ne _ (2 * (d * 6 * 2 + 7)) _ (d * 24 + 10) (by omega)]
  rw [setByte_ne _ (2 * (d * 6 * 2 + 6) + 1) _ (d * 24 + 10) (by omega)]
  rw [setByte_ne _ (2 * (d * 6 * 2 + 6)) _ (d * 24 + 10) (by omega)]
  rw [setByte_ne _ (2 * (d * 6 * 2 + 5) + 1) _ (d * 24 + 10) (by omega)]
  rw [setByte_at _ (2 * (d * 6 * 2 + 5)) _ (d * 24 + 10) (by omega)]

theorem writtenBuffer_at11 (d : Nat) (buf : Nat → Nat) (tpx tpy tpw tph dx dy sx sy : Int)
    (rgba rot : Option Nat) :
    writtenBuffer d buf tpx tpy tpw tph dx dy sx sy rgba rot (d * 24 + 11) =
      toUint16 tpy / 256 := by
  simp only [writtenBuffer]
  rw [setByte_ne _ (2 * (d * 6 * 2 + 7) + 1) _ (d * 24 + 11) (by omega)]
  rw [setByte_ne _ (2 * (d * 6 * 2 + 7)) _ (d * 24 + 11) (by omega)]
  rw [setByte_ne _ (2 * (d * 6 * 2 + 6) + 1) _ (d * 24 + 11) (by omega)]
  rw [setByte_ne _ (2 * (d * 6 * 2 + 6)) _ (d * 24 + 11) (by omega)]
  rw [setByte_at _ (2 * (d * 6 * 2 + 5) + 1) _ (d * 24 + 11) (by omega)]

theorem writtenBuffer_at12 (d : Nat) (buf : Nat → Nat) (tpx tpy tpw tph dx dy sx sy : Int)
    (rgba rot : Option Nat) :
    writtenBuffer d buf tpx tpy tpw tph dx dy sx sy rgba rot (d * 24 + 12) =
      toUint16 tpw % 256 := by
  simp only [writtenBuffer]
  rw [setByte_ne _ (2 * (d * 6 * 2 + 7) + 1) _ (d * 24 + 12) (by omega)]
  rw [setByte_ne _ (2 * (d * 6 * 2 + 7)) _ (d * 24 + 12) (by omega)]
  rw [setByte_ne _ (2 * (d * 6 * 2 + 6) + 1) _ (d * 24 + 12) (by omega)]
  rw [setByte_at _ (2 * (d * 6 * 2 + 6)) _ (d * 24 + 12) (by omega)]

theorem writtenBuffer_at13 (d : Nat) (buf : Nat → Nat) (tpx tpy tpw tph dx dy sx sy : Int)
    (rgba rot : Option Nat) :
    writtenBuffer d buf tpx tpy tpw tph dx dy sx sy rgba rot (d * 24 + 13) =
      toUint16 tpw / 256 := by
  simp only [writtenBuffer]
  rw [setByte_ne _ (2 * (d * 6 * 2 + 7) + 1) _ (d * 24 + 13) (by omega)]
  rw [setByte_ne _ (2 * (d * 6 * 2 + 7)) _ (d * 24 + 13) (by omega)]
  rw [setByte_at _ (2 * (d * 6 * 2 + 6) + 1) _ (d * 24 + 13) (by omega)]

theorem writtenBuffer_at14 (d : Nat) (buf : Nat → Nat) (tpx tpy tpw tph dx dy sx sy : Int)
    (rgba rot : Option Nat) :
    writtenBuffer d buf tpx tpy tpw tph dx dy sx sy rgba rot (d * 24 + 14) =
      toUint16 tph % 256 := by
  simp only [writtenBuffer]
  rw [setByte_ne _ (2 * (d * 6 * 2 + 7) + 1) _ (d * 24 + 14) (by omega)]
  rw [setByte_at _ (2 * (d * 6 * 2 + 7)) _ (d * 24 + 14) (by omega)]

theorem writtenBuffer_at15 (d : Nat) (buf : Nat → Nat) (tpx tpy tpw tph dx dy sx sy : Int)
    (rgba rot : Option Nat) :
    writtenBuffer d buf tpx tpy tpw tph dx dy sx sy rgba rot (d * 24 + 15) =
      toUint16 tph / 256 := by
  simp only [writtenBuffer]
  rw [setByte_at _ (2 * (d * 6 * 2 + 7) + 1) _ (d * 24 + 15) (by omega)]

theorem writtenBuffer_at16 (d : Nat) (buf : Nat → Nat) (tpx tpy tpw tph dx dy sx sy : Int)
    (rgba rot : Option Nat) :
    writtenBuffer d buf tpx tpy tpw tph dx dy sx sy rgba rot (d * 24 + 16) =
      toUint32 (defaultedRgba rgba) % 256 := by
  simp only [writtenBuffer]
  rw [setByte_ne _ (2 * (d * 6 * 2 + 7) + 1) _ (d * 24 + 16) (by omega)]
  rw [setByte_ne _ (2 * (d * 6 * 2 + 7)) _ (d * 24 + 16) (by omega)]
  rw [setByte_ne _ (2 * (d * 6 * 2 + 6) + 1) _ (d * 24 + 16) (by omega)]
  rw [setByte_ne _ (2 * (d * 6 * 2 + 6)) _ (d * 24 + 16) (by omega)]
  rw [setByte_ne _ (2 * (d * 6 * 2 + 5) + 1) _ (d * 24 + 16) (by omega)]
  rw [setByte_ne _ (2 * (d * 6 * 2 + 5)) _ (d * 24 + 16) (by omega)]
  rw [setByte_ne _ (2 * (d * 6 * 2 + 4) + 1) _ (d * 24 + 16) (by omega)]
  rw [setByte_ne _ (2 * (d * 6 * 2 + 4)) _ (d * 24 + 16) (by omega)]
  rw [setByte_ne _ (2 * (d * 6 * 2 + 3) + 1) _ (d * 24 + 16) (by omega)]
  rw [setByte_ne _ (2 * (d * 6 * 2 + 3)) _ (d * 24 + 16) (by omega)]
  rw [setByte_ne _ (2 * (d * 6 * 2 + 2) + 1) _ (d * 24 + 16) (by omega)]
  rw [setByte_ne _ (2 * (d * 6 * 2 + 2)) _ (d * 24 + 16) (by omega)]
  rw [setByte_ne _ (2 * (d * 6 * 2 + 1) + 1) _ (d * 24 + 16) (by omega)]
  rw [setByte_ne _ (2 * (d * 6 * 2 + 1)) _ (d * 24 + 16) (by omega)]
  rw [setByte_ne _ (2 * (d * 6 * 2) + 1) _ (d * 24 + 16) (by omega)]
  rw [setByte_ne _ (2 * (d * 6 * 2)) _ (d * 24 + 16) (by omega)]
  rw [setByte_ne _ (4 * (d * 6 + 5) + 3) _ (d * 24 + 16) (by omega)]
  rw [setByte_ne _ (4 * (d * 6 + 5) + 2) _ (d * 24 + 16) (by omega)]
  rw [setByte_ne _ (4 * (d * 6 + 5) + 1) _ (d * 24 + 16) (by omega)]
  rw [setByte_ne _ (4 * (d * 6 + 5)) _ (d * 24 + 16) (by omega)]
  rw [setByte_ne _ (4 * (d * 6 + 4) + 3) _ (d * 24 + 16) (by omega)]
  rw [setByte_ne _ (4 * (d * 6 + 4) + 2) _ (d * 24 + 16) (by omega)]
  rw [setByte_ne _ (4 * (d * 6 + 4) + 1) _ (d * 24 + 16) (by omega)]
  rw [setByte_at _ (4 * (d * 6 + 4)) _ (d * 24 + 16) (by omega)]

theorem writtenBuffer_at17 (d : Nat) (buf : Nat → Nat) (tpx tpy tpw tph dx dy sx sy : Int)
    (rgba rot : Option Nat) :
    writtenBuffer d buf tpx tpy tpw tph dx dy sx sy rgba rot (d * 24 + 17) =
      toUint32 (defaultedRgba rgba) / 256 % 256 := by
  simp only [writtenBuffer]
  rw [setByte_ne _ (2 * (d * 6 * 2 + 7) + 1) _ (d * 24 + 17) (by omega)]
  rw [setByte_ne _ (2 * (d * 6 * 2 + 7)) _ (d * 24 + 17) (by omega)]
  rw [setByte_ne _ (2 * (d * 6 * 2 + 6) + 1) _ (d * 24 + 17) (by omega)]
  rw [setByte_ne _ (2 * (d * 6 * 2 + 6)) _ (d * 24 + 17) (by omega)]
  rw [setByte_ne _ (2 * (d * 6 * 2 + 5) + 1) _ (d * 24 + 17) (by omega)]
  rw [setByte_ne _ (2 * (d * 6 * 2 + 5)) _ (d * 24 + 17) (by omega)]
  rw [setByte_ne _ (2 * (d * 6 * 2 + 4) + 1) _ (d * 24 + 17) (by omega)]
  rw [setByte_ne _ (2 * (d * 6 * 2 + 4)) _ (d * 24 + 17) (by omega)]
  rw [setByte_ne _ (2 * (d * 6 * 2 + 3) + 1) _ (d * 24 + 17) (by omega)]
  rw [setByte_ne _ (2 * (d * 6 * 2 + 3)) _ (d * 24 + 17) (by omega)]
  rw [setByte_ne _ (2 * (d * 6 * 2 + 2) + 1) _ (d * 24 + 17) (by omega)]
  rw [setByte_ne _ (2 * (d * 6 * 2 + 2)) _ (d * 24 + 17) (by omega)]
  rw [setByte_ne _ (2 * (d * 6 * 2 + 1) + 1) _ (d * 24 + 17) (by omega)]
  rw [setByte_ne _ (2 * (d * 6 * 2 + 1)) _ (d * 24 + 17) (by omega)]
  rw [setByte_ne _ (2 * (d * 6 * 2) + 1) _ (d * 24 + 17) (by omega)]
  rw [setByte_ne _ (2 * (d * 6 * 2)) _ (d * 24 + 17) (by omega)]
  rw [setByte_ne _ (4 * (d * 6 + 5) + 3) _ (d * 24 + 17) (by omega)]
  rw [setByte_ne _ (4 * (d * 6 + 5) + 2) _ (d * 24 + 17) (by omega)]
  rw [setByte_ne _ (4 * (d * 6 + 5) + 1) _ (d * 24 + 17) (by omega)]
  rw [setByte_ne _ (4 * (d * 6 + 5)) _ (d * 24 + 17) (by omega)]
  rw [setByte_ne _ (4 * (d * 6 + 4) + 3) _ (d * 24 + 17) (by omega)]
  rw [setByte_ne _ (4 * (d * 6 + 4) + 2) _ (d * 24 + 17) (by omega)]
  rw [setByte_at _ (4 * (d * 6 + 4) + 1) _ (d * 24 + 17) (by omega)]

theorem writtenBuffer_at18 (d : Nat) (buf : Nat → Nat) (tpx tpy tpw tph dx dy sx sy : Int)
    (rgba rot : Option Nat) :
    writtenBuffer d buf tpx tpy tpw tph dx dy sx sy rgba rot (d * 24 + 18) =
      toUint32 (defaultedRgba rgba) / 65536 % 256 := by
  simp only [writtenBuffer]
  rw [setByte_ne _ (2 * (d * 6 * 2 + 7) + 1) _ (d * 24 + 18) (by omega)]
  rw [setByte_ne _ (2 * (d * 6 * 2 + 7)) _ (d * 24 + 18) (by omega)]
  rw [setByte_ne _ (2 * (d * 6 * 2 + 6) + 1) _ (d * 24 + 18) (by omega)]
  rw [setByte_ne _ (2 * (d * 6 * 2 + 6)) _ (d * 24 + 18) (by omega)]
  rw [setByte_ne _ (2 * (d * 6 * 2 + 5) + 1) _ (d * 24 + 18) (by omega)]
  rw [setByte_ne _ (2 * (d * 6 * 2 + 5)) _ (d * 24 + 18) (by omega)]
  rw [setByte_ne _ (2 * (d * 6 * 2 + 4) + 1) _ (d * 24 + 18) (by omega)]
  rw [setByte_ne _ (2 * (d * 6 * 2 + 4)) _ (d * 24 + 18) (by omega)]
  rw [setByte_ne _ (2 * (d * 6 * 2 + 3) + 1) _ (d * 24 + 18) (by omega)]
  rw [setByte_ne _ (2 * (d * 6 * 2 + 3)) _ (d * 24 + 18) (by omega)]
  rw [setByte_ne _ (2 * (d * 6 * 2 + 2) + 1) _ (d * 24 + 18) (by omega)]
  rw [setByte_ne _ (2 * (d * 6 * 2 + 2)) _ (d * 24 + 18) (by omega)]
  rw [setByte_ne _ (2 * (d * 6 * 2 + 1) + 1) _ (d * 24 + 18) (by omega)]
  rw [setByte_ne _ (2 * (d * 6 * 2 + 1)) _ (d * 24 + 18) (by omega)]
  rw [setByte_ne _ (2 * (d * 6 * 2) + 1) _ (d * 24 + 18) (by omega)]
  rw [setByte_ne _ (2 * (d * 6 * 2)) _ (d * 24 + 18) (by omega)]
  rw [setByte_ne _ (4 * (d * 6 + 5) + 3) _ (d * 24 + 18) (by omega)]
  rw [setByte_ne _ (4 * (d * 6 + 5) + 2) _ (d * 24 + 18) (by omega)]
  rw [setByte_ne _ (4 * (d * 6 + 5) + 1) _ (d * 24 + 18) (by omega)]
  rw [setByte_ne _ (4 * (d * 6 + 5)) _ (d * 24 + 18) (by omega)]
  rw [setByte_ne _ (4 * (d * 6 + 4) + 3) _ (d * 24 + 18) (by omega)]
  rw [setByte_at _ (4 * (d * 6 + 4) + 2) _ (d * 24 + 18) (by omega)]

theorem writtenBuffer_at19 (d : Nat) (buf : Nat → Nat) (tpx tpy tpw tph dx dy sx sy : Int)
    (rgba rot : Option Nat) :
    writtenBuffer d buf tpx tpy tpw tph dx dy sx sy rgba rot (d * 24 + 19) =
      toUint32 (defaultedRgba rgba) / 16777216 % 256 := by
  simp only [writtenBuffer]
  rw [setByte_ne _ (2 * (d * 6 * 2 + 7) + 1) _ (d * 24 + 19) (by omega)]
  rw [setByte_ne _ (2 * (d * 6 * 2 + 7)) _ (d * 24 + 19) (by omega)]
  rw [setByte_ne _ (2 * (d * 6 * 2 + 6) + 1) _ (d * 24 + 19) (by omega)]
  rw [setByte_ne _ (2 * (d * 6 * 2 + 6)) _ (d * 24 + 19) (by omega)]
  rw [setByte_ne _ (2 * (d * 6 * 2 + 5) + 1) _ (d * 24 + 19) (by omega)]
  rw [setByte_ne _ (2 * (d * 6 * 2 + 5)) _ (d * 24 + 19) (by omega)]
  rw [setByte_ne _ (2 * (d * 6 * 2 + 4) + 1) _ (d * 24 + 19) (by omega)]
  rw [setByte_ne _ (2 * (d * 6 * 2 + 4)) _ (d * 24 + 19) (by omega)]
  rw [setByte_ne _ (2 * (d * 6 * 2 + 3) + 1) _ (d * 24 + 19) (by omega)]
  rw [setByte_ne _ (2 * (d * 6 * 2 + 3)) _ (d * 24 + 19) (by omega)]
  rw [setByte_ne _ (2 * (d * 6 * 2 + 2) + 1) _ (d * 24 + 19) (by omega)]
  rw [setByte_ne _ (2 * (d * 6 * 2 + 2)) _ (d * 24 + 19) (by omega)]
  rw [setByte_ne _ (2 * (d * 6 * 2 + 1) + 1) _ (d * 24 + 19) (by omega)]
  rw [setByte_ne _ (2 * (d * 6 * 2 + 1)) _ (d * 24 + 19) (by omega)]
  rw [setByte_ne _ (2 * (d * 6 * 2) + 1) _ (d * 24 + 19) (by omega)]
  rw [setByte_ne _ (2 * (d * 6 * 2)) _ (d * 24 + 19) (by omega)]
  rw [setByte_ne _ (4 * (d * 6 + 5) + 3) _ (d * 24 + 19) (by omega)]
  rw [setByte_ne _ (4 * (d * 6 + 5) + 2) _ (d * 24 + 19) (by omega)]
  rw [setByte_ne _ (4 * (d * 6 + 5) + 1) _ (d * 24 + 19) (by omega)]
  rw [setByte_ne _ (4 * (d * 6 + 5)) _ (d * 24 + 19) (by omega)]
  rw [setByte_at _ (4 * (d * 6 + 4) + 3) _ (d * 24 + 19) (by omega)]

theorem writtenBuffer_at20 (d : Nat) (buf : Nat → Nat) (tpx tpy tpw tph dx dy sx sy : Int)
    (rgba rot : Option Nat) :
    writtenBuffer d buf tpx tpy tpw tph dx dy sx sy rgba rot (d * 24 + 20) =
      toUint32 (defaultedRot rot) % 256 := by
  simp only [writtenBuffer]
  rw [setByte_ne _ (2 * (d * 6 * 2 + 7) + 1) _ (d * 24 + 20) (by omega)]
  rw [setByte_ne _ (2 * (d * 6 * 2 + 7)) _ (d * 24 + 20) (by omega)]
  rw [setByte_ne _ (2 * (d * 6 * 2 + 6) + 1) _ (d * 24 + 20) (by omega)]
  rw [setByte_ne _ (2 * (d * 6 * 2 + 6)) _ (d * 24 + 20) (by omega)]
  rw [setByte_ne _ (2 * (d * 6 * 2 + 5) + 1) _ (d * 24 + 20) (by omega)]
  rw [setByte_ne _ (2 * (d * 6 * 2 + 5)) _ (d * 24 + 20) (by omega)]
  rw [setByte_ne _ (2 * (d * 6 * 2 + 4) + 1) _ (d * 24 + 20) (by omega)]
  rw [setByte_ne _ (2 * (d * 6 * 2 + 4)) _ (d * 24 + 20) (by omega)]
  rw [setByte_ne _ (2 * (d * 6 * 2 + 3) + 1) _ (d * 24 + 20) (by omega)]
  rw [setByte_ne _ (2 * (d * 6 * 2 + 3)) _ (d * 24 + 20) (by omega)]
  rw [setByte_ne _ (2 * (d * 6 * 2 + 2) + 1) _ (d * 24 + 20) (by omega)]
  rw [setByte_ne _ (2 * (d * 6 * 2 + 2)) _ (d * 24 + 20) (by omega)]
  rw [setByte_ne _ (2 * (d * 6 * 2 + 1) + 1) _ (d * 24 + 20) (by omega)]
  rw [setByte_ne _ (2 * (d * 6 * 2 + 1)) _ (d * 24 + 20) (by omega)]
  rw [setByte_ne _ (2 * (d * 6 * 2) + 1) _ (d * 24 + 20) (by omega)]
  rw [setByte_ne _ (2 * (d * 6 * 2)) _ (d * 24 + 20) (by omega)]
  rw [setByte_ne _ (4 * (d * 6 + 5) + 3) _ (d * 24 + 20) (by omega)]
  rw [setByte_ne _ (4 * (d * 6 + 5) + 2) _ (d * 24 + 20) (by omega)]
  rw [setByte_ne _ (4 * (d * 6 + 5) + 1) _ (d * 24 + 20) (by omega)]
  rw [setByte_at _ (4 * (d * 6 + 5)) _ (d * 24 + 20) (by omega)]

theorem writtenBuffer_at21 (d : Nat) (buf : Nat → Nat) (tpx tpy tpw tph dx dy sx sy : Int)
    (rgba rot : Option Nat) :
    writtenBuffer d buf tpx tpy tpw tph dx dy sx sy rgba rot (d * 24 + 21) =
      toUint32 (defaultedRot rot) / 256 % 256 := by
  simp only [writtenBuffer]
  rw [setByte_ne _ (2 * (d * 6 * 2 + 7) + 1) _ (d * 24 + 21) (by omega)]
  rw [setByte_ne _ (2 * (d * 6 * 2 + 7)) _ (d * 24 + 21) (by omega)]
  rw [setByte_ne _ (2 * (d * 6 * 2 + 6) + 1) _ (d * 24 + 21) (by omega)]
  rw [setByte_ne _ (2 * (d * 6 * 2 + 6)) _ (d * 24 + 21) (by omega)]
  rw [setByte_ne _ (2 * (d * 6 * 2 + 5) + 1) _ (d * 24 + 21) (by omega)]
  rw [setByte_ne _ (2 * (d * 6 * 2 + 5)) _ (d * 24 + 21) (by omega)]
  rw [setByte_ne _ (2 * (d * 6 * 2 + 4) + 1) _ (d * 24 + 21) (by omega)]
  rw [setByte_ne _ (2 * (d * 6 * 2 + 4)) _ (d * 24 + 21) (by omega)]
  rw [setByte_ne _ (2 * (d * 6 * 2 + 3) + 1) _ (d * 24 + 21) (by omega)]
  rw [setByte_ne _ (2 * (d * 6 * 2 + 3)) _ (d * 24 + 21) (by omega)]
  rw [setByte_ne _ (2 * (d * 6 * 2 + 2) + 1) _ (d * 24 + 21) (by omega)]
  rw [setByte_ne _ (2 * (d * 6 * 2 + 2)) _ (d * 24 + 21) (by omega)]
  rw [setByte_ne _ (2 * (d * 6 * 2 + 1) + 1) _ (d * 24 + 21) (by omega)]
  rw [setByte_ne _ (2 * (d * 6 * 2 + 1)) _ (d * 24 + 21) (by omega)]
  rw [setByte_ne _ (2 * (d * 6 * 2) + 1) _ (d * 24 + 21) (by omega)]
  rw [setByte_ne _ (2 * (d * 6 * 2)) _ (d * 24 + 21) (by omega)]
  rw [setByte_ne _ (4 * (d * 6 + 5) + 3) _ (d * 24 + 21) (by omega)]
  rw [setByte_ne _ (4 * (d * 6 + 5) + 2) _ (d * 24 + 21) (by omega)]
  rw [setByte_at _ (4 * (d * 6 + 5) + 1) _ (d * 24 + 21) (by omega)]

theorem writtenBuffer_at22 (d : Nat) (buf : Nat → Nat) (tpx tpy tpw tph dx dy sx sy : Int)
    (rgba rot : Option Nat) :
    writtenBuffer d buf tpx tpy tpw tph dx dy sx sy rgba rot (d * 24 + 22) =
      toUint32 (defaultedRot rot) / 65536 % 256 := by
  simp only [writtenBuffer]
  rw [setByte_ne _ (2 * (d * 6 * 2 + 7) + 1) _ (d * 24 + 22) (by omega)]
  rw [setByte_ne _ (2 * (d * 6 * 2 + 7)) _ (d * 24 + 22) (by omega)]
  rw [setByte_ne _ (2 * (d * 6 * 2 + 6) + 1) _ (d * 24 + 22) (by omega)]
  rw [setByte_ne _ (2 * (d * 6 * 2 + 6)) _ (d * 24 + 22) (by omega)]
  rw [setByte_ne _ (2 * (d * 6 * 2 + 5) + 1) _ (d * 24 + 22) (by omega)]
  rw [setByte_ne _ (2 * (d * 6 * 2 + 5)) _ (d * 24 + 22) (by omega)]
  rw [setByte_ne _ (2 * (d * 6 * 2 + 4) + 1) _ (d * 24 + 22) (by omega)]
  rw [setByte_ne _ (2 * (d * 6 * 2 + 4)) _ (d * 24 + 22) (by omega)]
  rw [setByte_ne _ (2 * (d * 6 * 2 + 3) + 1) _ (d * 24 + 22) (by omega)]
  rw [setByte_ne _ (2 * (d * 6 * 2 + 3)) _ (d * 24 + 22) (by omega)]
  rw [setByte_ne _ (2 * (d * 6 * 2 + 2) + 1) _ (d * 24 + 22) (by omega)]
  rw [setByte_ne _ (2 * (d * 6 * 2 + 2)) _ (d * 24 + 22) (by omega)]
  rw [setByte_ne _ (2 * (d * 6 * 2 + 1) + 1) _ (d * 24 + 22) (by omega)]
  rw [setByte_ne _ (2 * (d * 6 * 2 + 1)) _ (d * 24 + 22) (by omega)]
  rw [setByte_ne _ (2 * (d * 6 * 2) + 1) _ (d * 24 + 22) (by omega)]
  rw [setByte_ne _ (2 * (d * 6 * 2)) _ (d * 24 + 22) (by omega)]
  rw [setByte_ne _ (4 * (d * 6 + 5) + 3) _ (d * 24 + 22) (by omega)]
  rw [setByte_at _ (4 * (d * 6 + 5) + 2) _ (d * 24 + 22) (by omega)]

theorem writtenBuffer_at23 (d : Nat) (buf : Nat → Nat) (tpx tpy tpw tph dx dy sx sy : Int)
    (rgba rot : Option Nat) :
    writtenBuffer d buf tpx tpy tpw tph dx dy sx sy rgba rot (d * 24 + 23) =
      toUint32 (defaultedRot rot) / 16777216 % 256 := by
  simp only [writtenBuffer]
  rw [setByte_ne _ (2 * (d * 6 * 2 + 7) + 1) _ (d * 24 + 23) (by omega)]
  rw [setByte_ne _ (2 * (d * 6 * 2 + 7)) _ (d * 24 + 23) (by omega)]
  rw [setByte_ne _ (2 * (d * 6 * 2 + 6) + 1) _ (d * 24 + 23) (by omega)]
  rw [setByte_ne _ (2 * (d * 6 * 2 + 6)) _ (d * 24 + 23) (by omega)]
  rw [setByte_ne _ (2 * (d * 6 * 2 + 5) + 1) _ (d * 24 + 23) (by omega)]
  rw [setByte_ne _ (2 * (d * 6 * 2 + 5)) _ (d * 24 + 23) (by omega)]
  rw [setByte_ne _ (2 * (d * 6 * 2 + 4) + 1) _ (d * 24 + 23) (by omega)]
  rw [setByte_ne _ (2 * (d * 6 * 2 + 4)) _ (d * 24 + 23) (by omega)]
  rw [setByte_ne _ (2 * (d * 6 * 2 + 3) + 1) _ (d * 24 + 23) (by omega)]
  rw [setByte_ne _ (2 * (d * 6 * 2 + 3)) _ (d * 24 + 23) (by omega)]
  rw [setByte_ne _ (2 * (d * 6 * 2 + 2) + 1) _ (d * 24 + 23) (by omega)]
  rw [setByte_ne _ (2 * (d * 6 * 2 + 2)) _ (d * 24 + 23) (by omega)]
  rw [setByte_ne _ (2 * (d * 6 * 2 + 1) + 1) _ (d * 24 + 23) (by omega)]
  rw [setByte_ne _ (2 * (d * 6 * 2 + 1)) _ (d * 24 + 23) (by omega)]
  rw [setByte_ne _ (2 * (d * 6 * 2) + 1) _ (d * 24 + 23) (by omega)]
  rw [setByte_ne _ (2 * (d * 6 * 2)) _ (d * 24 + 23) (by omega)]
  rw [setByte_at _ (4 * (d * 6 + 5) + 3) _ (d * 24 + 23) (by omega)]

theorem writtenBuffer_outside (d : Nat) (buf : Nat → Nat) (tpx tpy tpw tph dx dy sx sy : Int)
    (rgba rot : Option Nat)
    (addr : Nat) (h : addr < d * 24 ∨ d * 24 + 24 ≤ addr) :
    writtenBuffer d buf tpx tpy tpw tph dx dy sx sy rgba rot addr = buf addr := by
  simp only [writtenBuffer]
  rw [setByte_ne _ (2 * (d * 6 * 2 + 7) + 1) _ addr (by omega)]
  rw [setByte_ne _ (2 * (d * 6 * 2 + 7)) _ addr (by omega)]
  rw [setByte_ne _ (2 * (d * 6 * 2 + 6) + 1) _ addr (by omega)]
  rw [setByte_ne _ (2 * (d * 6 * 2 + 6)) _ addr (by omega)]
  rw [setByte_ne _ (2 * (d * 6 * 2 + 5) + 1) _ addr (by omega)]
  rw [setByte_ne _ (2 * (d * 6 * 2 + 5)) _ addr (by omega)]
  rw [setByte_ne _ (2 * (d * 6 * 2 + 4) + 1) _ addr (by omega)]
  rw [setByte_ne _ (2 * (d * 6 * 2 + 4)) _ addr (by omega)]
  rw [setByte_ne _ (2 * (d * 6 * 2 + 3) + 1) _ addr (by omega)]
  rw [setByte_ne _ (2 * (d * 6 * 2 + 3)) _ addr (by omega)]
  rw [setByte_ne _ (2 * (d * 6 * 2 + 2) + 1) _ addr (by omega)]
  rw [setByte_ne _ (2 * (d * 6 * 2 + 2)) _ addr (by omega)]
  rw [setByte_ne _ (2 * (d * 6 * 2 + 1) + 1) _ addr (by omega)]
  rw [setByte_ne _ (2 * (d * 6 * 2 + 1)) _ addr (by omega)]
  rw [setByte_ne _ (2 * (d * 6 * 2) + 1) _ addr (by omega)]
  rw [setByte_ne _ (2 * (d * 6 * 2)) _ addr (by omega)]
  rw [setByte_ne _ (4 * (d * 6 + 5) + 3) _ addr (by omega)]
  rw [setByte_ne _ (4 * (d * 6 + 5) + 2) _ addr (by omega)]
  rw [setByte_ne _ (4 * (d * 6 + 5) + 1) _ addr (by omega)]
  rw [setByte_ne _ (4 * (d * 6 + 5)) _ addr (by omega)]
  rw [setByte_ne _ (4 * (d * 6 + 4) + 3) _ addr (by omega)]
  rw [setByte_ne _ (4 * (d * 6 + 4) + 2) _ addr (by omega)]
  rw [setByte_ne _ (4 * (d * 6 + 4) + 1) _ addr (by omega)]
  rw [setByte_ne _ (4 * (d * 6 + 4)) _ addr (by omega)]

theorem drawImage_buffer (s : GLState) (tpx tpy tpw tph dx dy sx sy : Int)
    (rgba rot : Option Nat) (h : s.draws < s.maxDraws) :
    (drawImage s tpx tpy tpw tph dx dy sx sy rgba rot).buffer =
      writtenBuffer s.draws s.buffer tpx tpy tpw tph dx dy sx sy rgba rot := by
  rw [drawImage_eq s tpx tpy tpw tph dx dy sx sy rgba rot h]

/-- C1 (counterexample).  The claim says a `draw` issued when
`pendingCount = maxDraws` raises CapacityExceeded and leaves
`0 ≤ pendingCount ≤ capacity` intact.  On the concrete at-capacity state
`fullState` (capacity 1, one pending sprite), `drawImage` returns normally
and leaves `draws = 2 > maxDraws = 1`: no error is raised and the invariant
is violated. -/
theorem drawImage_capacity_counterexample :
    fullState.draws = fullState.maxDraws ∧
    (drawImage fullState 0 0 0 0 0 0 0 0 none none).draws = 2 ∧
    ¬ (drawImage fullState 0 0 0 0 0 0 0 0 none none).draws ≤ fullState.maxDraws := by
  refine ⟨rfl, rfl, by decide⟩

/-- C1 (amended).  When `pendingCount` has reached `maxDraws`, `drawImage`
raises no error: every typed-array store falls out of bounds and is silently
dropped, the buffer is unchanged, and `draws` is still incremented past the
capacity, so `pendingCount ≤ capacity` is not preserved. -/
theorem drawImage_at_capacity_silently_drops (s : GLState)
    (tpx tpy tpw tph dx dy sx sy : Int) (rgba rot : Option Nat)
    (h : s.maxDraws ≤ s.draws) :
    drawImage s tpx tpy tpw tph dx dy sx sy rgba rot = { s with draws := s.draws + 1 } ∧
    (drawImage s tpx tpy tpw tph dx dy sx sy rgba rot).buffer = s.buffer ∧
    s.maxDraws < (drawImage s tpx tpy tpw tph dx dy sx sy rgba rot).draws := by
  have he := drawImage_eq_of_full s tpx tpy tpw tph dx dy sx sy rgba rot h
  refine ⟨he, by rw [he], by rw [he]; exact Nat.lt_succ_of_le h⟩

theorem drawImage_at_capacity_silently_drops_witness :
    fullState.maxDraws ≤ fullState.draws ∧
    (drawImage fullState 1 2 3 4 5 6 7 8 none none =
        { fullState with draws := fullState.draws + 1 } ∧
      (drawImage fullState 1 2 3 4 5 6 7 8 none none).buffer = fullState.buffer ∧
      fullState.maxDraws < (drawImage fullState 1 2 3 4 5 6 7 8 none none).draws) :=
  ⟨by decide, drawImage_at_capacity_silently_drops fullState 1 2 3 4 5 6 7 8 none none (by decide)⟩

/-- C10.  A below-capacity `drawImage` increments `draws` by exactly one,
leaves every buffer byte outside the 24-byte slot at index `draws`
untouched (in particular all records below the current index), and changes
no other renderer state: capacity, canvas binding, cached atlas size and
GL handles are all unchanged. -/
theorem drawImage_writes_only_slot (s : GLState) (tpx tpy tpw tph dx dy sx sy : Int)
    (rgba rot : Option Nat) (h : s.draws < s.maxDraws) :
    (drawImage s tpx tpy tpw tph dx dy sx sy rgba rot).draws = s.draws + 1 ∧
    (∀ addr, addr < s.draws * 24 ∨ s.draws * 24 + 24 ≤ addr →
      (drawImage s tpx tpy tpw tph dx dy sx sy rgba rot).buffer addr = s.buffer addr) ∧
    (drawImage s tpx tpy tpw tph dx dy sx sy rgba rot).maxDraws = s.maxDraws ∧
    (drawImage s tpx tpy tpw tph dx dy sx sy rgba rot).canvasW = s.canvasW ∧
    (drawImage s tpx tpy tpw tph dx dy sx sy rgba rot).canvasH = s.canvasH ∧
    (drawImage s tpx tpy tpw tph dx dy sx sy rgba rot).texSizeX = s.texSizeX ∧
    (drawImage s tpx tpy tpw tph dx dy sx sy rgba rot).texSizeY = s.texSizeY ∧
    (drawImage s tpx tpy tpw tph dx dy sx sy rgba rot).glHandles = s.glHandles := by
  refine ⟨rfl, ?_, rfl, rfl, rfl, rfl, rfl, rfl⟩
  intro addr ha
  rw [drawImage_buffer s tpx tpy tpw tph dx dy sx sy rgba rot h]
  exact writtenBuffer_outside s.draws s.buffer tpx tpy tpw tph dx dy sx sy rgba rot addr ha

theorem drawImage_writes_only_slot_witness :
    exState.draws < exState.maxDraws ∧
    (drawImage exState 1 2 3 4 5 6 7 8 none none).buffer 30 = exState.buffer 30 :=
  ⟨by decide,
   (drawImage_writes_only_slot exState 1 2 3 4 5 6 7 8 none none (by decide)).2.1 30 (by decide)⟩

/-- C7.  `resize` reads the canvas dimensions current at the call, emits
exactly the viewport command `(0, 0, w, h)` and the two scale uniforms
`w/2` and `h/2`, mutates no renderer state (in particular the command
buffer survives), issues no buffer reallocation and no atlas re-upload,
and different surface dimensions always produce different scale uniforms. -/
theorem resize_sets_half_size_uniforms :
    (∀ s : GLState, resize s =
      (s, [GLCmd.viewport 0 0 s.canvasW s.canvasH,
           GLCmd.uniform1f "uCanvasSizeX" ((s.canvasW : ℚ) / 2),
           GLCmd.uniform1f "uCanvasSizeY" ((s.canvasH : ℚ) / 2)])) ∧
    (∀ s : GLState, (resize s).1 = s) ∧
    (∀ s t : GLState, (s.canvasW, s.canvasH) ≠ (t.canvasW, t.canvasH) →
      ((s.canvasW : ℚ) / 2, (s.canvasH : ℚ) / 2) ≠
        ((t.canvasW : ℚ) / 2, (t.canvasH : ℚ) / 2)) ∧
    (∀ s : GLState, ∀ c ∈ (resize s).2,
      (∀ n, c ≠ GLCmd.bufferData n) ∧ (∀ w h, c ≠ GLCmd.texImage2D w h)) := by
  refine ⟨fun s => rfl, fun s => rfl, ?_, ?_⟩
  · intro s t hne heq
    apply hne
    rw [Prod.mk.injEq] at heq ⊢
    obtain ⟨h1, h2⟩ := heq
    constructor
    · exact_mod_cast (show (s.canvasW : ℚ) = (t.canvasW : ℚ) by linarith)
    · exact_mod_cast (show (s.canvasH : ℚ) = (t.canvasH : ℚ) by linarith)
  · intro s c hc
    simp only [resize, List.mem_cons, List.not_mem_nil, or_false] at hc
    rcases hc with h | h | h <;> subst h <;>
      exact ⟨fun n => by simp, fun w h => by simp⟩

theorem resize_sets_half_size_uniforms_witness :
    (exState.canvasW, exState.canvasH) ≠ (exState2.canvasW, exState2.canvasH) ∧
    ((exState.canvasW : ℚ) / 2, (exState.canvasH : ℚ) / 2) ≠
      ((exState2.canvasW : ℚ) / 2, (exState2.canvasH : ℚ) / 2) :=
  ⟨by decide, resize_sets_half_size_uniforms.2.2.1 exState exState2 (by decide)⟩

/-- C2.  A below-capacity `drawImage` with `pendingCount = k` writes its
record into the 24-byte slot at byte offset `k * 24`: bytes 0-15 are the
eight little-endian signed-16-bit patterns in the order drawX, drawY,
sizeX, sizeY, texPartX, texPartY, texPartSizeX, texPartSizeY; bytes 16-19
are the tint channel bytes in a, b, g, r order (the packed `0xRRGGBBAA`
value stored little-endian); bytes 20-23 are the rotation float32's four
bytes -- and the attribute setup declares exactly these offsets and types
with stride 24 and divisor 1. -/
theorem drawImage_record_layout (s : GLState) (tpx tpy tpw tph dx dy sx sy : Int)
    (rgba rot : Option Nat) (h : s.draws < s.maxDraws) :
    (drawImage s tpx tpy tpw tph dx dy sx sy rgba rot).buffer (s.draws * 24) = toUint16 dx % 256 ∧
    (drawImage s tpx tpy tpw tph dx dy sx sy rgba rot).buffer (s.draws * 24 + 1) = toUint16 dx / 256 ∧
    (drawImage s tpx tpy tpw tph dx dy sx sy rgba rot).buffer (s.draws * 24 + 2) = toUint16 dy % 256 ∧
    (drawImage s tpx tpy tpw tph dx dy sx sy rgba rot).buffer (s.draws * 24 + 3) = toUint16 dy / 256 ∧
    (drawImage s tpx tpy tpw tph dx dy sx sy rgba rot).buffer (s.draws * 24 + 4) = toUint16 sx % 256 ∧
    (drawImage s tpx tpy tpw tph dx dy sx sy rgba rot).buffer (s.draws * 24 + 5) = toUint16 sx / 256 ∧
    (drawImage s tpx tpy tpw tph dx dy sx sy rgba rot).buffer (s.draws * 24 + 6) = toUint16 sy % 256 ∧
    (drawImage s tpx tpy tpw tph dx dy sx sy rgba rot).buffer (s.draws * 24 + 7) = toUint16 sy / 256 ∧
    (drawImage s tpx tpy tpw tph dx dy sx sy rgba rot).buffer (s.draws * 24 + 8) = toUint16 tpx % 256 ∧
    (drawImage s tpx tpy tpw tph dx dy sx sy rgba rot).buffer (s.draws * 24 + 9) = toUint16 tpx / 256 ∧
    (drawImage s tpx tpy tpw tph dx dy sx sy rgba rot).buffer (s.draws * 24 + 10) = toUint16 tpy % 256 ∧
    (drawImage s tpx tpy tpw tph dx dy sx sy rgba rot).buffer (s.draws * 24 + 11) = toUint16 tpy / 256 ∧
    (drawImage s tpx tpy tpw tph dx dy sx sy rgba rot).buffer (s.draws * 24 + 12) = toUint16 tpw % 256 ∧
    (drawImage s tpx tpy tpw tph dx dy sx sy rgba rot).buffer (s.draws * 24 + 13) = toUint16 tpw / 256 ∧
    (drawImage s tpx tpy tpw tph dx dy sx sy rgba rot).buffer (s.draws * 24 + 14) = toUint16 tph % 256 ∧
    (drawImage s tpx tpy tpw tph dx dy sx sy rgba rot).buffer (s.draws * 24 + 15) = toUint16 tph / 256 ∧
    (drawImage s tpx tpy tpw tph dx dy sx sy rgba rot).buffer (s.draws * 24 + 16) = toUint32 (defaultedRgba rgba) % 256 ∧
    (drawImage s tpx tpy tpw tph dx dy sx sy rgba rot).buffer (s.draws * 24 + 17) = toUint32 (defaultedRgba rgba) / 256 % 256 ∧
    (drawImage s tpx tpy tpw tph dx dy sx sy rgba rot).buffer (s.draws * 24 + 18) = toUint32 (defaultedRgba rgba) / 65536 % 256 ∧
    (drawImage s tpx tpy tpw tph dx dy sx sy rgba rot).buffer (s.draws * 24 + 19) = toUint32 (defaultedRgba rgba) / 16777216 % 256 ∧
    (drawImage s tpx tpy tpw tph dx dy sx sy rgba rot).buffer (s.draws * 24 + 20) = toUint32 (defaultedRot rot) % 256 ∧
    (drawImage s tpx tpy tpw tph dx dy sx sy rgba rot).buffer (s.draws * 24 + 21) = toUint32 (defaultedRot rot) / 256 % 256 ∧
    (drawImage s tpx tpy tpw tph dx dy sx sy rgba rot).buffer (s.draws * 24 + 22) = toUint32 (defaultedRot rot) / 65536 % 256 ∧
    (drawImage s tpx tpy tpw tph dx dy sx sy rgba rot).buffer (s.draws * 24 + 23) = toUint32 (defaultedRot rot) / 16777216 % 256 ∧
    instanceAttribPointers =
      [{ name := "aPos", size := 2, dataType := AttrDataType.short,
         stride := 24, byteOffset := 0, divisor := 1 },
       { name := "aSize", size := 2, dataType := AttrDataType.short,
         stride := 24, byteOffset := 4, divisor := 1 },
       { name := "aTexPos", size := 4, dataType := AttrDataType.short,
         stride := 24, byteOffset := 8, divisor := 1 },
       { name := "aRgba", size := 4, dataType := AttrDataType.unsignedByte,
         stride := 24, byteOffset := 16, divisor := 1 },
       { name := "aRotation", size := 1, dataType := AttrDataType.float,
         stride := 24, byteOffset := 20, divisor := 1 }] ∧
    bytesPerImage = 24 := by
  rw [drawImage_buffer s tpx tpy tpw tph dx dy sx sy rgba rot h]
  exact ⟨writtenBuffer_at0 s.draws s.buffer tpx tpy tpw tph dx dy sx sy rgba rot,
    writtenBuffer_at1 s.draws s.buffer tpx tpy tpw tph dx dy sx sy rgba rot,
    writtenBuffer_at2 s.draws s.buffer tpx tpy tpw tph dx dy sx sy rgba rot,
    writtenBuffer_at3 s.draws s.buffer tpx tpy tpw tph dx dy sx sy rgba rot,
    writtenBuffer_at4 s.draws s.buffer tpx tpy tpw tph dx dy sx sy rgba rot,
    writtenBuffer_at5 s.draws s.buffer tpx tpy tpw tph dx dy sx sy rgba rot,
    writtenBuffer_at6 s.draws s.buffer tpx tpy tpw tph dx dy sx sy rgba rot,
    writtenBuffer_at7 s.draws s.buffer tpx tpy tpw tph dx dy sx sy rgba rot,
    writtenBuffer_at8 s.draws s.buffer tpx tpy tpw tph dx dy sx sy rgba rot,
    writtenBuffer_at9 s.draws s.buffer tpx tpy tpw tph dx dy sx sy rgba rot,
    writtenBuffer_at10 s.draws s.buffer tpx tpy tpw tph dx dy sx sy rgba rot,
    writtenBuffer_at11 s.draws s.buffer tpx tpy tpw tph dx dy sx sy rgba rot,
    writtenBuffer_at12 s.draws s.buffer tpx tpy tpw tph dx dy sx sy rgba rot,
    writtenBuffer_at13 s.draws s.buffer tpx tpy tpw tph dx dy sx sy rgba rot,
    writtenBuffer_at14 s.draws s.buffer tpx tpy tpw tph dx dy sx sy rgba rot,
    writtenBuffer_at15 s.draws s.buffer tpx tpy tpw tph dx dy sx sy rgba rot,
    writtenBuffer_at16 s.draws s.buffer tpx tpy tpw tph dx dy sx sy rgba rot,
    writtenBuffer_at17 s.draws s.buffer tpx tpy tpw tph dx dy sx sy rgba rot,
    writtenBuffer_at18 s.draws s.buffer tpx tpy tpw tph dx dy sx sy rgba rot,
    writtenBuffer_at19 s.draws s.buffer tpx tpy tpw tph dx dy sx sy rgba rot,
    writtenBuffer_at20 s.draws s.buffer tpx tpy tpw tph dx dy sx sy rgba rot,
    writtenBuffer_at21 s.draws s.buffer tpx tpy tpw tph dx dy sx sy rgba rot,
    writtenBuffer_at22 s.draws s.buffer tpx tpy tpw tph dx dy sx sy rgba rot,
    writtenBuffer_at23 s.draws s.buffer tpx tpy tpw tph dx dy sx sy rgba rot, rfl, rfl⟩

theorem drawImage_record_layout_witness :
    exState.draws < exState.maxDraws ∧
    ((drawImage exState 1 2 3 4 5 6 7 8 (some 287454020) (some 1065353216)).buffer (exState.draws * 24) = 5 ∧
    ((drawImage exState 1 2 3 4 5 6 7 8 (some 287454020) (some 1065353216)).buffer (exState.draws * 24 + 1) = 0 ∧
    ((drawImage exState 1 2 3 4 5 6 7 8 (some 287454020) (some 1065353216)).buffer (exState.draws * 24 + 2) = 6 ∧
    ((drawImage exState 1 2 3 4 5 6 7 8 (some 287454020) (some 1065353216)).buffer (exState.draws * 24 + 3) = 0 ∧
    ((drawImage exState 1 2 3 4 5 6 7 8 (some 287454020) (some 1065353216)).buffer (exState.draws * 24 + 4) = 7 ∧
    ((drawImage exState 1 2 3 4 5 6 7 8 (some 287454020) (some 1065353216)).buffer (exState.draws * 24 + 5) = 0 ∧
    ((drawImage exState 1 2 3 4 5 6 7 8 (some 287454020) (some 1065353216)).buffer (exState.draws * 24 + 6) = 8 ∧
    ((drawImage exState 1 2 3 4 5 6 7 8 (some 287454020) (some 1065353216)).buffer (exState.draws * 24 + 7) = 0 ∧
    ((drawImage exState 1 2 3 4 5 6 7 8 (some 287454020) (some 1065353216)).buffer (exState.draws * 24 + 8) = 1 ∧
    ((drawImage exState 1 2 3 4 5 6 7 8 (some 287454020) (some 1065353216)).buffer (exState.draws * 24 + 9) = 0 ∧
    ((drawImage exState 1 2 3 4 5 6 7 8 (some 287454020) (some 1065353216)).buffer (exState.draws * 24 + 10) = 2 ∧
    ((drawImage exState 1 2 3 4 5 6 7 8 (some 287454020) (some 1065353216)).buffer (exState.draws * 24 + 11) = 0 ∧
    ((drawImage exState 1 2 3 4 5 6 7 8 (some 287454020) (some 1065353216)).buffer (exState.draws * 24 + 12) = 3 ∧
    ((drawImage exState 1 2 3 4 5 6 7 8 (some 287454020) (some 1065353216)).buffer (exState.draws * 24 + 13) = 0 ∧
    ((drawImage exState 1 2 3 4 5 6 7 8 (some 287454020) (some 1065353216)).buffer (exState.draws * 24 + 14) = 4 ∧
    ((drawImage exState 1 2 3 4 5 6 7 8 (some 287454020) (some 1065353216)).buffer (exState.draws * 24 + 15) = 0 ∧
    ((drawImage exState 1 2 3 4 5 6 7 8 (some 287454020) (some 1065353216)).buffer (exState.draws * 24 + 16) = 68 ∧
    ((drawImage exState 1 2 3 4 5 6 7 8 (some 287454020) (some 1065353216)).buffer (exState.draws * 24 + 17) = 51 ∧
    ((drawImage exState 1 2 3 4 5 6 7 8 (some 287454020) (some 1065353216)).buffer (exState.draws * 24 + 18) = 34 ∧
    ((drawImage exState 1 2 3 4 5 6 7 8 (some 287454020) (some 1065353216)).buffer (exState.draws * 24 + 19) = 17 ∧
    ((drawImage exState 1 2 3 4 5 6 7 8 (some 287454020) (some 1065353216)).buffer (exState.draws * 24 + 20) = 0 ∧
    ((drawImage exState 1 2 3 4 5 6 7 8 (some 287454020) (some 1065353216)).buffer (exState.draws * 24 + 21) = 0 ∧
    ((drawImage exState 1 2 3 4 5 6 7 8 (some 287454020) (some 1065353216)).buffer (exState.draws * 24 + 22) = 128 ∧
    ((drawImage exState 1 2 3 4 5 6 7 8 (some 287454020) (some 1065353216)).buffer (exState.draws * 24 + 23) = 63 ∧
    instanceAttribPointers =
      [{ name := "aPos", size := 2, dataType := AttrDataType.short,
         stride := 24, byteOffset := 0, divisor := 1 },
       { name := "aSize", size := 2, dataType := AttrDataType.short,
         stride := 24, byteOffset := 4, divisor := 1 },
       { name := "aTexPos", size := 4, dataType := AttrDataType.short,
         stride := 24, byteOffset := 8, divisor := 1 },
       { name := "aRgba", size := 4, dataType := AttrDataType.unsignedByte,
         stride := 24, byteOffset := 16, divisor := 1 },
       { name := "aRotation", size := 1, dataType := AttrDataType.float,
         stride := 24, byteOffset := 20, divisor := 1 }] ∧
    bytesPerImage = 24)))))))))))))))))))))))) :=
  ⟨by decide,
   drawImage_record_layout exState 1 2 3 4 5 6 7 8 (some 287454020) (some 1065353216) (by decide)⟩

/-- C3.  `drawEverything` emits exactly one clear, one upload of the used
prefix of the command buffer -- `draws * 24` bytes starting at byte offset 0
when `draws ≤ maxDraws`, and never more than `draws * 24` bytes regardless
of capacity -- and exactly one instanced draw of the 6-index two-triangle
quad with instance count `draws`, then resets `draws` to 0. -/
theorem drawEverything_uploads_used_region (s : GLState) :
    (drawEverything s).1 = { s with draws := 0 } ∧
    (∀ off bytes, GLCmd.bufferSubData off bytes ∈ (drawEverything s).2 →
      off = 0 ∧ bytes.length ≤ s.draws * 24) ∧
    (drawEverything s).2.countP (fun c => match c with
      | GLCmd.drawElementsInstanced _ _ => true
      | _ => false) = 1 ∧
    elementIndices.length = 6 ∧
    (s.draws ≤ s.maxDraws →
      (drawEverything s).2 =
        [GLCmd.clear,
         GLCmd.bufferSubData 0 ((List.range (s.draws * 24)).map s.buffer),
         GLCmd.drawElementsInstanced 6 s.draws] ∧
      ((List.range (s.draws * 24)).map s.buffer).length = s.draws * 24) := by
  refine ⟨rfl, ?_, rfl, rfl, ?_⟩
  · intro off bytes hmem
    simp only [drawEverything, List.mem_cons, List.not_mem_nil, or_false] at hmem
    rcases hmem with hm | hm | hm
    · simp at hm
    · injection hm with h1 h2
      refine ⟨h1, ?_⟩
      subst h2
      simp only [List.length_map, List.length_range]
      rw [bytesPerImage_eq]
      omega
    · simp at hm
  · intro hle
    have hm : min (s.draws * 6) (s.maxDraws * bytesPerImage / 4) * 4 = s.draws * 24 := by
      rw [bytesPerImage_eq]
      omega
    refine ⟨?_, by simp⟩
    simp only [drawEverything]
    rw [hm]

theorem drawEverything_uploads_used_region_witness :
    exDrawn.draws ≤ exDrawn.maxDraws ∧
    ((drawEverything exDrawn).2 =
      [GLCmd.clear,
       GLCmd.bufferSubData 0 ((List.range (exDrawn.draws * 24)).map exDrawn.buffer),
       GLCmd.drawElementsInstanced 6 exDrawn.draws] ∧
     ((List.range (exDrawn.draws * 24)).map exDrawn.buffer).length = exDrawn.draws * 24) :=
  ⟨by decide, (drawEverything_uploads_used_region exDrawn).2.2.2.2 (by decide)⟩

/-- C8.  `drawImage` validates nothing: any out-of-int16-range position,
size or texture-rect argument completes without error (`draws` still
advances) and the stored 16-bit pattern decodes, under the GPU's signed
fetch, to the argument reduced modulo 2^16 into [-32768, 32767]; the
patterns stored for all eight fields reconstruct `toUint16` of the
arguments. -/
theorem drawImage_wraps_int16 (s : GLState) (tpx tpy tpw tph dx dy sx sy : Int)
    (rgba rot : Option Nat) (h : s.draws < s.maxDraws) :
    (∀ v : Int, v < -32768 ∨ 32767 < v →
      Int.ModEq 65536 (asInt16 (toUint16 v)) v ∧
      -32768 ≤ asInt16 (toUint16 v) ∧ asInt16 (toUint16 v) ≤ 32767) ∧
    (drawImage s tpx tpy tpw tph dx dy sx sy rgba rot).buffer (s.draws * 24) + 256 *
      (drawImage s tpx tpy tpw tph dx dy sx sy rgba rot).buffer (s.draws * 24 + 1) =
        toUint16 dx ∧
    (drawImage s tpx tpy tpw tph dx dy sx sy rgba rot).buffer (s.draws * 24 + 2) + 256 *
      (drawImage s tpx tpy tpw tph dx dy sx sy rgba rot).buffer (s.draws * 24 + 3) =
        toUint16 dy ∧
    (drawImage s tpx tpy tpw tph dx dy sx sy rgba rot).buffer (s.draws * 24 + 4) + 256 *
      (drawImage s tpx tpy tpw tph dx dy sx sy rgba rot).buffer (s.draws * 24 + 5) =
        toUint16 sx ∧
    (drawImage s tpx tpy tpw tph dx dy sx sy rgba rot).buffer (s.draws * 24 + 6) + 256 *
      (drawImage s tpx tpy tpw tph dx dy sx sy rgba rot).buffer (s.draws * 24 + 7) =
        toUint16 sy ∧
    (drawImage s tpx tpy tpw tph dx dy sx sy rgba rot).buffer (s.draws * 24 + 8) + 256 *
      (drawImage s tpx tpy tpw tph dx dy sx sy rgba rot).buffer (s.draws * 24 + 9) =
        toUint16 tpx ∧
    (drawImage s tpx tpy tpw tph dx dy sx sy rgba rot).buffer (s.draws * 24 + 10) + 256 *
      (drawImage s tpx tpy tpw tph dx dy sx sy rgba rot).buffer (s.draws * 24 + 11) =
        toUint16 tpy ∧
    (drawImage s tpx tpy tpw tph dx dy sx sy rgba rot).buffer (s.draws * 24 + 12) + 256 *
      (drawImage s tpx tpy tpw tph dx dy sx sy rgba rot).buffer (s.draws * 24 + 13) =
        toUint16 tpw ∧
    (drawImage s tpx tpy tpw tph dx dy sx sy rgba rot).buffer (s.draws * 24 + 14) + 256 *
      (drawImage s tpx tpy tpw tph dx dy sx sy rgba rot).buffer (s.draws * 24 + 15) =
        toUint16 tph ∧
    (drawImage s tpx tpy tpw tph dx dy sx sy rgba rot).draws = s.draws + 1 := by
  rw [drawImage_buffer s tpx tpy tpw tph dx dy sx sy rgba rot h]
  refine ⟨?_, ?_, ?_, ?_, ?_, ?_, ?_, ?_, ?_, rfl⟩
  · intro v hv
    refine ⟨?_, ?_, ?_⟩ <;>
      simp only [Int.ModEq, asInt16, toUint16] <;> split_ifs <;> omega
  all_goals {
    simp only [writtenBuffer_at0 s.draws s.buffer tpx tpy tpw tph dx dy sx sy rgba rot,
      writtenBuffer_at1 s.draws s.buffer tpx tpy tpw tph dx dy sx sy rgba rot,
      writtenBuffer_at2 s.draws s.buffer tpx tpy tpw tph dx dy sx sy rgba rot,
      writtenBuffer_at3 s.draws s.buffer tpx tpy tpw tph dx dy sx sy rgba rot,
      writtenBuffer_at4 s.draws s.buffer tpx tpy tpw tph dx dy sx sy rgba rot,
      writtenBuffer_at5 s.draws s.buffer tpx tpy tpw tph dx dy sx sy rgba rot,
      writtenBuffer_at6 s.draws s.buffer tpx tpy tpw tph dx dy sx sy rgba rot,
      writtenBuffer_at7 s.draws s.buffer tpx tpy tpw tph dx dy sx sy rgba rot,
      writtenBuffer_at8 s.draws s.buffer tpx tpy tpw tph dx dy sx sy rgba rot,
      writtenBuffer_at9 s.draws s.buffer tpx tpy tpw tph dx dy sx sy rgba rot,
      writtenBuffer_at10 s.draws s.buffer tpx tpy tpw tph dx dy sx sy rgba rot,
      writtenBuffer_at11 s.draws s.buffer tpx tpy tpw tph dx dy sx sy rgba rot,
      writtenBuffer_at12 s.draws s.buffer tpx tpy tpw tph dx dy sx sy rgba rot,
      writtenBuffer_at13 s.draws s.buffer tpx tpy tpw tph dx dy sx sy rgba rot,
      writtenBuffer_at14 s.draws s.buffer tpx tpy tpw tph dx dy sx sy rgba rot,
      writtenBuffer_at15 s.draws s.buffer tpx tpy tpw tph dx dy sx sy rgba rot]
    simp only [toUint16]
    omega
  }

theorem drawImage_wraps_int16_witness :
    exState.draws < exState.maxDraws ∧
    ((40000 : Int) < -32768 ∨ (32767 : Int) < 40000) ∧
    asInt16 (toUint16 40000) = -25536 ∧
    (Int.ModEq 65536 (asInt16 (toUint16 40000)) 40000 ∧
      -32768 ≤ asInt16 (toUint16 40000) ∧ asInt16 (toUint16 40000) ≤ 32767) :=
  ⟨by decide, by decide, by decide,
   (drawImage_wraps_int16 exState 1 2 3 4 40000 6 7 8 none none (by decide)).1
     40000 (by decide)⟩

/-- C9.  An omitted tint argument and the packed tint value 0 both store
the default bytes a=127, b=g=r=255 (packed 0xFFFFFF7F); no packed tint
value below 2^32 can make all four stored tint bytes zero, so fully
transparent black is unreachable through `drawImage`; and an omitted
rotation stores the four bytes of float 0. -/
theorem drawImage_default_tint (s : GLState) (tpx tpy tpw tph dx dy sx sy : Int)
    (h : s.draws < s.maxDraws) :
    (∀ rot, (drawImage s tpx tpy tpw tph dx dy sx sy none rot).buffer (s.draws * 24 + 16) = 127 ∧
      (drawImage s tpx tpy tpw tph dx dy sx sy none rot).buffer (s.draws * 24 + 17) = 255 ∧
      (drawImage s tpx tpy tpw tph dx dy sx sy none rot).buffer (s.draws * 24 + 18) = 255 ∧
      (drawImage s tpx tpy tpw tph dx dy sx sy none rot).buffer (s.draws * 24 + 19) = 255) ∧
    (∀ rot, (drawImage s tpx tpy tpw tph dx dy sx sy (some 0) rot).buffer (s.draws * 24 + 16) = 127 ∧
      (drawImage s tpx tpy tpw tph dx dy sx sy (some 0) rot).buffer (s.draws * 24 + 17) = 255 ∧
      (drawImage s tpx tpy tpw tph dx dy sx sy (some 0) rot).buffer (s.draws * 24 + 18) = 255 ∧
      (drawImage s tpx tpy tpw tph dx dy sx sy (some 0) rot).buffer (s.draws * 24 + 19) = 255) ∧
    (∀ v rot, v < 4294967296 →
      ¬((drawImage s tpx tpy tpw tph dx dy sx sy (some v) rot).buffer (s.draws * 24 + 16) = 0 ∧
        (drawImage s tpx tpy tpw tph dx dy sx sy (some v) rot).buffer (s.draws * 24 + 17) = 0 ∧
        (drawImage s tpx tpy tpw tph dx dy sx sy (some v) rot).buffer (s.draws * 24 + 18) = 0 ∧
        (drawImage s tpx tpy tpw tph dx dy sx sy (some v) rot).buffer (s.draws * 24 + 19) = 0)) ∧
    (∀ rgba, (drawImage s tpx tpy tpw tph dx dy sx sy rgba none).buffer (s.draws * 24 + 20) = 0 ∧
      (drawImage s tpx tpy tpw tph dx dy sx sy rgba none).buffer (s.draws * 24 + 21) = 0 ∧
      (drawImage s tpx tpy tpw tph dx dy sx sy rgba none).buffer (s.draws * 24 + 22) = 0 ∧
      (drawImage s tpx tpy tpw tph dx dy sx sy rgba none).buffer (s.draws * 24 + 23) = 0) := by
  refine ⟨?_, ?_, ?_, ?_⟩
  · intro rot
    rw [drawImage_buffer s tpx tpy tpw tph dx dy sx sy none rot h,
      writtenBuffer_at16 s.draws s.buffer tpx tpy tpw tph dx dy sx sy none rot,
      writtenBuffer_at17 s.draws s.buffer tpx tpy tpw tph dx dy sx sy none rot,
      writtenBuffer_at18 s.draws s.buffer tpx tpy tpw tph dx dy sx sy none rot,
      writtenBuffer_at19 s.draws s.buffer tpx tpy tpw tph dx dy sx sy none rot]
    exact ⟨by decide, by decide, by decide, by decide⟩
  · intro rot
    rw [drawImage_buffer s tpx tpy tpw tph dx dy sx sy (some 0) rot h,
      writtenBuffer_at16 s.draws s.buffer tpx tpy tpw tph dx dy sx sy (some 0) rot,
      writtenBuffer_at17 s.draws s.buffer tpx tpy tpw tph dx dy sx sy (some 0) rot,
      writtenBuffer_at18 s.draws s.buffer tpx tpy tpw tph dx dy sx sy (some 0) rot,
      writtenBuffer_at19 s.draws s.buffer tpx tpy tpw tph dx dy sx sy (some 0) rot]
    exact ⟨by decide, by decide, by decide, by decide⟩
  · intro v rot hv
    rw [drawImage_buffer s tpx tpy tpw tph dx dy sx sy (some v) rot h,
      writtenBuffer_at16 s.draws s.buffer tpx tpy tpw tph dx dy sx sy (some v) rot,
      writtenBuffer_at17 s.draws s.buffer tpx tpy tpw tph dx dy sx sy (some v) rot,
      writtenBuffer_at18 s.draws s.buffer tpx tpy tpw tph dx dy sx sy (some v) rot,
      writtenBuffer_at19 s.draws s.buffer tpx tpy tpw tph dx dy sx sy (some v) rot]
    simp only [defaultedRgba, toUint32]
    split_ifs with hv0
    · intro hall
      exact absurd hall.1 (by decide)
    · intro hall
      omega
  · intro rgba
    rw [drawImage_buffer s tpx tpy tpw tph dx dy sx sy rgba none h,
      writtenBuffer_at20 s.draws s.buffer tpx tpy tpw tph dx dy sx sy rgba none,
      writtenBuffer_at21 s.draws s.buffer tpx tpy tpw tph dx dy sx sy rgba none,
      writtenBuffer_at22 s.draws s.buffer tpx tpy tpw tph dx dy sx sy rgba none,
      writtenBuffer_at23 s.draws s.buffer tpx tpy tpw tph dx dy sx sy rgba none]
    exact ⟨by decide, by decide, by decide, by decide⟩

theorem drawImage_default_tint_witness :
    exState.draws < exState.maxDraws ∧
    ((drawImage exState 1 2 3 4 5 6 7 8 none none).buffer (exState.draws * 24 + 16) = 127 ∧
     (drawImage exState 1 2 3 4 5 6 7 8 none none).buffer (exState.draws * 24 + 17) = 255 ∧
     (drawImage exState 1 2 3 4 5 6 7 8 none none).buffer (exState.draws * 24 + 18) = 255 ∧
     (drawImage exState 1 2 3 4 5 6 7 8 none none).buffer (exState.draws * 24 + 19) = 255) :=
  ⟨by decide, (drawImage_default_tint exState 1 2 3 4 5 6 7 8 (by decide)).1 none⟩

/-- C4.  The shader tint decode: for tint bytes `(a, b, g, r)`, if
`a ≤ 127` the multiplier is `(r/255, g/255, b/255)` at opacity `a/127`;
if `a > 127` it is `(r, g, b) * (2 ^ ((a - 127) / 16) / 255)` at opacity 1.
In particular `(a=127, r=g=b=255)` gives `(1, 1, 1)` fully opaque,
`(a=0, r=255, g=b=0)` gives opacity 0 (fully transparent), and
`(a=143, r=g=b=255)` gives `colorMult = 2/255` and output `(2, 2, 2)`
opaque -- brighter than the `a=127` white tint's `(1, 1, 1)`. -/
theorem fragAbgr_tint_decode :
    (∀ a b g r : ℝ, 127 < a →
      fragAbgr a b g r =
        (r * ((2 : ℝ) ^ ((a - 127) / 16) / 255), g * ((2 : ℝ) ^ ((a - 127) / 16) / 255),
         b * ((2 : ℝ) ^ ((a - 127) / 16) / 255), 1)) ∧
    (∀ a b g r : ℝ, a ≤ 127 → fragAbgr a b g r = (r / 255, g / 255, b / 255, a / 127)) ∧
    fragAbgr 127 255 255 255 = (1, 1, 1, 1) ∧
    fragAbgr 0 0 0 255 = (1, 0, 0, 0) ∧
    (2 : ℝ) ^ (((143 : ℝ) - 127) / 16) / 255 = 2 / 255 ∧
    fragAbgr 143 255 255 255 = (2, 2, 2, 1) := by
  have h143 : ((143 : ℝ) - 127) / 16 = 1 := by norm_num
  refine ⟨?_, ?_, ?_, ?_, ?_, ?_⟩
  · intro a b g r ha
    rw [fragAbgr, if_pos ha]
  · intro a b g r ha
    rw [fragAbgr, if_neg (not_lt.mpr ha)]
  · rw [fragAbgr, if_neg (by norm_num)]
    norm_num
  · rw [fragAbgr, if_neg (by norm_num)]
    norm_num
  · rw [h143, Real.rpow_one]
  · rw [fragAbgr, if_pos (by norm_num : (127 : ℝ) < 143)]
    rw [h143, Real.rpow_one]
    norm_num

theorem fragAbgr_tint_decode_witness :
    (0 : ℝ) ≤ 127 ∧
    fragAbgr 0 0 0 255 = ((255 : ℝ) / 255, (0 : ℝ) / 255, (0 : ℝ) / 255, (0 : ℝ) / 127) :=
  ⟨by norm_num, fragAbgr_tint_decode.2.1 0 0 0 255 (by norm_num)⟩

/-- C5.  With `rotationRadians = 0` the vertex stage takes the trig-free
branch: for every corner multiplier `m` in the shared stream
`{(0,0), (0,1), (1,0), (1,1)}`, the emitted screen corner is exactly
`drawPos + drawSize * m`. -/
theorem vertexDrawPos_fast_path (aPos aSize m : ℝ × ℝ) (hm : m ∈ cornerMultipliers) :
    vertexDrawPos aPos aSize 0 m = (aPos.1 + aSize.1 * m.1, aPos.2 + aSize.2 * m.2) := by
  rw [vertexDrawPos, if_neg (by simp)]

theorem vertexDrawPos_fast_path_witness :
    ((1 : ℝ), (1 : ℝ)) ∈ cornerMultipliers ∧
    vertexDrawPos (1, 2) (3, 4) 0 (1, 1) = (1 + 3 * 1, 2 + 4 * 1) :=
  ⟨by simp [cornerMultipliers],
   vertexDrawPos_fast_path (1, 2) (3, 4) (1, 1) (by simp [cornerMultipliers])⟩

/-- C6.  With `rotationRadians ≠ 0` the rotation branch runs, and the
average of the four emitted corners is exactly
`drawPos + drawSize / 2`: the sprite rotates about its own center, not
the origin. -/
theorem vertexDrawPos_rotates_about_center (aPos aSize : ℝ × ℝ) (θ : ℝ) (hθ : θ ≠ 0) :
    (((vertexDrawPos aPos aSize θ (0, 0)).1 + (vertexDrawPos aPos aSize θ (0, 1)).1 +
      (vertexDrawPos aPos aSize θ (1, 0)).1 + (vertexDrawPos aPos aSize θ (1, 1)).1) / 4,
     ((vertexDrawPos aPos aSize θ (0, 0)).2 + (vertexDrawPos aPos aSize θ (0, 1)).2 +
      (vertexDrawPos aPos aSize θ (1, 0)).2 + (vertexDrawPos aPos aSize θ (1, 1)).2) / 4) =
      (aPos.1 + aSize.1 / 2, aPos.2 + aSize.2 / 2) := by
  simp only [vertexDrawPos, if_pos hθ]
  rw [Prod.mk.injEq]
  constructor <;> ring

theorem vertexDrawPos_rotates_about_center_witness :
    Real.pi ≠ 0 ∧
    (((vertexDrawPos (1, 2) (3, 4) Real.pi (0, 0)).1 +
      (vertexDrawPos (1, 2) (3, 4) Real.pi (0, 1)).1 +
      (vertexDrawPos (1, 2) (3, 4) Real.pi (1, 0)).1 +
      (vertexDrawPos (1, 2) (3, 4) Real.pi (1, 1)).1) / 4,
     ((vertexDrawPos (1, 2) (3, 4) Real.pi (0, 0)).2 +
      (vertexDrawPos (1, 2) (3, 4) Real.pi (0, 1)).2 +
      (vertexDrawPos (1, 2) (3, 4) Real.pi (1, 0)).2 +
      (vertexDrawPos (1, 2) (3, 4) Real.pi (1, 1)).2) / 4) = (1 + 3 / 2, 2 + 4 / 2) :=
  ⟨Real.pi_ne_zero, vertexDrawPos_rotates_about_center (1, 2) (3, 4) Real.pi Real.pi_ne_zero⟩

end Gl1
